import Mathlib

/-!
Verification of the builder/invariant-enforcement engine of the
openapi-builders package (OpenAPI 3.0 and 3.1 fluent builders).

The TypeScript builders accumulate each node as a plain JavaScript object
(the private `target` of each builder class).  We embed such objects as
association tables of string keys and JavaScript values, in property
insertion order, which is exactly the own-enumerable-property table of a
JS object literal.  Each builder method becomes a function from the
current draft to `Except BuilderError Obj`: the TypeScript methods throw
on a failed check before performing any write, so a failing call is
modelled as an `error` result that carries no draft.

The 3.1 builders (src/3.1/Builders.ts) import the field-name based
helpers `checkArray`, `checkDuplicate`, `checkEmpty`, `checkExclusive`,
`checkMap`, `checkURL` of the 3.1 Errors module; those helpers and the
`deepEqual` comparator are embedded below.  The 3.0 builders
(src/3.0/Builders.ts) use no such helpers: their few guards throw plain
`Error` values, and their `validateUrl` / `validateMediaType` /
`validateRef` support functions are empty TODO stubs.
-/

set_option autoImplicit false

mutual

/-- A JavaScript value as manipulated by the builders: `undefined`, `null`,
booleans, numbers, strings, plain objects (own enumerable properties in
insertion order), arrays, and ES2015 `Map` objects (whose entries are not
own enumerable properties). -/
inductive JSValue where
  | vUndefined : JSValue
  | vNull : JSValue
  | vBool : Bool → JSValue
  | vNum : Int → JSValue
  | vStr : String → JSValue
  | vObj : JSFields → JSValue
  | vArr : JSElems → JSValue
  | vMap : JSFields → JSValue

/-- A key-value property table in insertion order (the own enumerable
properties of a JS object, or the entries of a `Map`). -/
inductive JSFields where
  | nil : JSFields
  | cons : String → JSValue → JSFields → JSFields

/-- The element list of a JS array. -/
inductive JSElems where
  | nil : JSElems
  | cons : JSValue → JSElems → JSElems

end

/-- The own-enumerable-property table of a JS object.  Every builder draft
(`this.target`) is such an object. -/
abbrev Obj := JSFields

/-- Build a property table from a list of key-value pairs. -/
def Obj.ofList : List (String × JSValue) → Obj
  | [] => JSFields.nil
  | kv :: rest => JSFields.cons kv.1 kv.2 (Obj.ofList rest)

/-- Build a JS array element list from a Lean list. -/
def JSElems.ofList : List JSValue → JSElems
  | [] => JSElems.nil
  | v :: rest => JSElems.cons v (JSElems.ofList rest)

/-- Property-presence test, `object.hasOwnProperty(field)`. -/
def JSFields.hasField : JSFields → String → Bool
  | JSFields.nil, _ => false
  | JSFields.cons k _ rest, f => k == f || JSFields.hasField rest f

/-- Property read, `object[field]`; a missing property reads as
`undefined`; a duplicated key reads its first occurrence. -/
def JSFields.get : JSFields → String → JSValue
  | JSFields.nil, _ => JSValue.vUndefined
  | JSFields.cons k v rest, f => if k == f then v else JSFields.get rest f

/-- Property write, `object[field] = v`: an existing key keeps its
position, a new key is appended (JS property insertion order). -/
def JSFields.set : JSFields → String → JSValue → JSFields
  | JSFields.nil, f, v => JSFields.cons f v JSFields.nil
  | JSFields.cons k w rest, f, v =>
    if k == f then JSFields.cons f v rest else JSFields.cons k w (JSFields.set rest f v)

/-- Key list of the draft, `Object.keys(object)`. -/
def JSFields.keys : JSFields → List String
  | JSFields.nil => []
  | JSFields.cons k _ rest => k :: JSFields.keys rest

/-- Number of properties, `Object.keys(object).length`. -/
def JSFields.length : JSFields → Nat
  | JSFields.nil => 0
  | JSFields.cons _ _ rest => 1 + JSFields.length rest

/-- Test a predicate on every property of the table. -/
def JSFields.all : JSFields → (String → JSValue → Bool) → Bool
  | JSFields.nil, _ => true
  | JSFields.cons k v rest, p => p k v && JSFields.all rest p

/-- Test a predicate on some element of the array. -/
def JSElems.any : JSElems → (JSValue → Bool) → Bool
  | JSElems.nil, _ => false
  | JSElems.cons v rest, p => p v || JSElems.any rest p

/-- Array push, `array.push(v)`. -/
def JSElems.push : JSElems → JSValue → JSElems
  | JSElems.nil, v => JSElems.cons v JSElems.nil
  | JSElems.cons w rest, v => JSElems.cons w (JSElems.push rest v)

/-- Test whether the value is `undefined`. -/
def JSValue.isUndef : JSValue → Bool
  | JSValue.vUndefined => true
  | _ => false

/-- The keys that survive JSON serialization: `JSON.stringify` omits
properties whose value is `undefined`. -/
def serializedKeys : JSFields → List String
  | JSFields.nil => []
  | JSFields.cons k v rest =>
    if JSValue.isUndef v then serializedKeys rest else k :: serializedKeys rest

/-- JavaScript truthiness of a value, as used in `if (x)` tests. -/
def truthy : JSValue → Bool
  | JSValue.vUndefined => false
  | JSValue.vNull => false
  | JSValue.vBool b => b
  | JSValue.vNum n => n != 0
  | JSValue.vStr s => s != ""
  | _ => true

/-- ES2015 `Map.prototype.set` on a value that is a `Map`: an existing key
keeps its position, a new key is appended.  Other values are returned
unchanged (the builders only ever call this on `Map` fields). -/
def JSValue.mapSet : JSValue → String → JSValue → JSValue
  | JSValue.vMap entries, k, v => JSValue.vMap (JSFields.set entries k v)
  | other, _, _ => other

/-- ES2015 `Map.prototype.has` on a value that is a `Map`; `false` on
anything else. -/
def JSValue.mapHas : JSValue → String → Bool
  | JSValue.vMap entries, k => JSFields.hasField entries k
  | _, _ => false

/-- Property write inside a plain-object-valued field,
`object[field][key] = v`.  Non-object field values are left unchanged
(the call sites always guard the field to be an object). -/
def JSValue.objSet : JSValue → String → JSValue → JSValue
  | JSValue.vObj fs, k, v => JSValue.vObj (JSFields.set fs k v)
  | other, _, _ => other

/-- Array push inside an array-valued field value, `array.push(v)`.
Non-array values are left unchanged (the call sites always guard the
field to be an array). -/
def JSValue.arrPush : JSValue → JSValue → JSValue
  | JSValue.vArr es, v => JSValue.vArr (JSElems.push es v)
  | other, _ => other

/-- Update a `Map`-valued field of the draft:
`object[field].set(key, v)`. -/
def Obj.setInMap (o : Obj) (f k : String) (v : JSValue) : Obj :=
  JSFields.set o f (JSValue.mapSet (JSFields.get o f) k v)

/-- Update a plain-object-valued field of the draft:
`object[field][key] = v`. -/
def Obj.setInObj (o : Obj) (f k : String) (v : JSValue) : Obj :=
  JSFields.set o f (JSValue.objSet (JSFields.get o f) k v)

/-- Push onto an array-valued field of the draft:
`object[field].push(v)`. -/
def Obj.pushArr (o : Obj) (f : String) (v : JSValue) : Obj :=
  JSFields.set o f (JSValue.arrPush (JSFields.get o f) v)

/-- The three error classes of the 3.1 Errors module, plus `plain` for the
bare `Error` values thrown by the 3.0 builders. -/
inductive ErrKind where
  | duplicate : ErrKind
  | exclusive : ErrKind
  | value : ErrKind
  | plain : ErrKind
deriving DecidableEq, Repr

/-- A thrown error: its class and its message. -/
structure BuilderError where
  kind : ErrKind
  message : String

/-- The error class of a failed builder call, `none` when the call
succeeded. -/
def errKind {α : Type} : Except BuilderError α → Option ErrKind
  | Except.error e => some e.kind
  | Except.ok _ => none

/-- Model of the WHATWG URL constructor success predicate used by
`checkURL` via `new URL(value)` (the URL parser itself is an external
platform collaborator, not repository code).  A string is accepted when
it carries a URL scheme: an ASCII alphabetic character followed by ASCII
alphanumerics, plus, minus or dot, terminated by a colon.  This captures
the acceptance behaviour of the constructor on the absolute-URL strings
exercised by the claims; host-shape requirements of special schemes are
not modelled. -/
def isValidURL (s : String) : Bool :=
  match s.toList with
  | [] => false
  | c :: rest => c.isAlpha && isValidURL.schemeRest rest
where
  schemeRest : List Char → Bool
  | [] => false
  | ':' :: _ => true
  | c :: rest => (c.isAlphanum || c == '+' || c == '-' || c == '.') && schemeRest rest

/-- The test `path.startsWith("/")` used by the path-key validations
(written on the character list so that it evaluates in the kernel). -/
def startsWithSlash (s : String) : Bool :=
  match s.toList with
  | c :: _ => c == '/'
  | [] => false

/-- The JS test `object !== null && typeof object === "object"` from the
3.1 Errors module (`isObject`). -/
def isObject : JSValue → Bool
  | JSValue.vObj _ => true
  | JSValue.vArr _ => true
  | JSValue.vMap _ => true
  | _ => false

/-- Indexed property table of the elements of a JS array, starting at the
given index. -/
def elemProps (i : Nat) : JSElems → JSFields
  | JSElems.nil => JSFields.nil
  | JSElems.cons v rest => JSFields.cons (toString i) v (elemProps (i + 1) rest)

/-- Indexed property table of the characters of a JS string, starting at
the given index. -/
def charProps (i : Nat) : List Char → JSFields
  | [] => JSFields.nil
  | c :: rest => JSFields.cons (toString i) (JSValue.vStr (String.mk [c])) (charProps (i + 1) rest)

/-- Own enumerable properties of a value as enumerated by `Object.keys`
and read back by indexing: objects expose their property table, arrays
their elements under index keys, strings their characters under index
keys; `Map` objects, primitives, `null` and `undefined` expose none. -/
def ownProps : JSValue → JSFields
  | JSValue.vObj fs => fs
  | JSValue.vArr es => elemProps 0 es
  | JSValue.vStr s => charProps 0 s.toList
  | _ => JSFields.nil

/-- Indexing `o[key]` through the own enumerable properties; a missing
key reads as `undefined`. -/
def jsIndex (o : JSValue) (key : String) : JSValue :=
  JSFields.get (ownProps o) key

/-- Strict equality `a === b` for the operand pairs `deepEqual` reaches
with it (at least one side not an object): primitives compare by value.
Two object operands compare by reference; `deepEqual` never reaches that
case (both-object operands recurse instead), so it is modelled as
`false`. -/
def strictEq : JSValue → JSValue → Bool
  | JSValue.vUndefined, JSValue.vUndefined => true
  | JSValue.vNull, JSValue.vNull => true
  | JSValue.vBool a, JSValue.vBool b => a == b
  | JSValue.vNum a, JSValue.vNum b => a == b
  | JSValue.vStr a, JSValue.vStr b => a == b
  | _, _ => false

mutual

/-- Structural size of a JS value, dominating the property-nesting depth;
used to provision the recursion counter of `deepEqual`. -/
def jsSize : JSValue → Nat
  | JSValue.vObj fs => 1 + jsSizeFields fs
  | JSValue.vArr es => 1 + jsSizeElems es
  | _ => 1

/-- Structural size of a property table. -/
def jsSizeFields : JSFields → Nat
  | JSFields.nil => 0
  | JSFields.cons _ v rest => 1 + jsSize v + jsSizeFields rest

/-- Structural size of an array element list. -/
def jsSizeElems : JSElems → Nat
  | JSElems.nil => 0
  | JSElems.cons v rest => 1 + jsSize v + jsSizeElems rest

end

/-- Recursion kernel of `deepEqual` from the 3.1 Errors module, with an
explicit depth counter.  One unfolding compares the own-key counts of
the two values and then walks the keys of `object1`, comparing each
property value: both-object pairs recurse, all other pairs use strict
equality.  `deepEqual` below instantiates the counter with
`jsSize object1`, which dominates the recursion depth (each recursive
call descends into a property value of `object1`), so the counter never
reaches zero on any call the comparison performs. -/
def deepEqualFuel : Nat → JSValue → JSValue → Bool
  | 0, _, _ => false
  | fuel + 1, object1, object2 =>
    (JSFields.length (ownProps object1) == JSFields.length (ownProps object2)) &&
    JSFields.all (ownProps object1) (fun key val1 =>
      let val2 := jsIndex object2 key
      if isObject val1 && isObject val2 then deepEqualFuel fuel val1 val2
      else strictEq val1 val2)

/-- Structural deep equality of two JS values (`deepEqual`, 3.1 Errors
module): equal own-key counts, and for every key of `object1` an equal
property value in `object2`, recursively for object-valued properties.
Property enumeration order is irrelevant because lookup in `object2` is
by key. -/
def deepEqual (object1 object2 : JSValue) : Bool :=
  deepEqualFuel (jsSize object1) object1 object2

/-- 3.1 Errors module, `checkArray`: throws `DuplicateError` when the
array-valued field already contains an element deeply equal to the
proposed value (`array.forEach` with a throw on the first `deepEqual`
match). -/
def checkArray (name : String) (object : Obj) (field : String) (value : JSValue) :
    Except BuilderError Unit :=
  match JSFields.get object field with
  | JSValue.vArr array =>
    if JSElems.any array (fun item => deepEqual item value) then
      Except.error ⟨ErrKind.duplicate, name ++ " " ++ field ++ " array already has value"⟩
    else Except.ok ()
  | _ => Except.error ⟨ErrKind.plain, "TypeError: field is not an array"⟩

/-- 3.1 Errors module, `checkDuplicate`: throws `DuplicateError` when the
draft already has the field as an own property
(`object.hasOwnProperty(field)`), regardless of the stored value. -/
def checkDuplicate (name : String) (object : Obj) (field : String) :
    Except BuilderError Unit :=
  if JSFields.hasField object field then
    Except.error ⟨ErrKind.duplicate, name ++ " already has field " ++ field⟩
  else Except.ok ()

/-- 3.1 Errors module, `checkEmpty`: throws `ValueError` on an empty
proposed array. -/
def checkEmpty (name : String) (_object : Obj) (field : String) (values : List JSValue) :
    Except BuilderError Unit :=
  if values.length == 0 then
    Except.error ⟨ErrKind.value, name ++ " cannot accept an empty " ++ field ++ " array"⟩
  else Except.ok ()

/-- 3.1 Errors module, `checkExclusive`: throws `ExclusiveError` when the
draft already has the conflicting old field as an own property. -/
def checkExclusive (name : String) (object : Obj) (fieldNew fieldOld : String) :
    Except BuilderError Unit :=
  if JSFields.hasField object fieldOld then
    Except.error ⟨ErrKind.exclusive,
      name ++ " already has field " ++ fieldOld ++ " so cannot add field " ++ fieldNew⟩
  else Except.ok ()

/-- 3.1 Errors module, `checkMap`: throws `DuplicateError` when the
`Map`-valued field already has the key.  The call sites only invoke it
when the field holds a `Map`. -/
def checkMap (name : String) (object : Obj) (field : String) (key : String) :
    Except BuilderError Unit :=
  if JSValue.mapHas (JSFields.get object field) key then
    Except.error ⟨ErrKind.duplicate, name ++ " " ++ field ++ " map already has key " ++ key⟩
  else Except.ok ()

/-- 3.1 Errors module, `checkURL`: throws `ValueError` when
`new URL(value)` throws. -/
def checkURL (name : String) (_object : Obj) (field : String) (value : String) :
    Except BuilderError Unit :=
  if isValidURL value then Except.ok ()
  else Except.error ⟨ErrKind.value, name ++ " " ++ field ++ " must be a valid URL"⟩

namespace V31

/-! Builders of src/3.1/Builders.ts.  Each builder is represented by the
constructor value of its private `target` draft (`new`) and one function
per method; `build` returns the draft unchanged, exactly as in the
source. -/

/-- PathsObjectBuilder constructor: `this.target = {}`. -/
def PathsObjectBuilder.new : Obj := JSFields.nil

/-- PathsObjectBuilder.pathItem: duplicate check on the path key, then
the leading-slash syntax check (`ValueError`), then the write. -/
def PathsObjectBuilder.pathItem (path : String) (pathItem : JSValue) (t : Obj) :
    Except BuilderError Obj := do
  checkDuplicate "PathsObject" t path
  if !startsWithSlash path then
    Except.error ⟨ErrKind.value, "Path " ++ path ++ " does not start with a slash"⟩
  else
    pure (JSFields.set t path pathItem)

/-- PathsObjectBuilder.build: returns the draft. -/
def PathsObjectBuilder.build (t : Obj) : Obj := t

/-- ComponentsObjectBuilder constructor: `this.target = {}`. -/
def ComponentsObjectBuilder.new : Obj := JSFields.nil

/-- ComponentsObjectBuilder.schema: keyed `Map` adder with `checkMap`
guard once the map exists. -/
def ComponentsObjectBuilder.schema (name : String) (schema : JSValue) (t : Obj) :
    Except BuilderError Obj := do
  let t ← if truthy (JSFields.get t "schemas") then do
      checkMap "ComponentsObject" t "schemas" name
      pure t
    else
      pure (JSFields.set t "schemas" (JSValue.vMap JSFields.nil))
  pure (Obj.setInMap t "schemas" name schema)

/-- ComponentsObjectBuilder.response: keyed `Map` adder with `checkMap`
guard once the map exists. -/
def ComponentsObjectBuilder.response (name : String) (response : JSValue) (t : Obj) :
    Except BuilderError Obj := do
  let t ← if truthy (JSFields.get t "responses") then do
      checkMap "ComponentsObject" t "responses" name
      pure t
    else
      pure (JSFields.set t "responses" (JSValue.vMap JSFields.nil))
  pure (Obj.setInMap t "responses" name response)

/-- ComponentsObjectBuilder.build: returns the draft. -/
def ComponentsObjectBuilder.build (t : Obj) : Obj := t

/-- ContactObjectBuilder constructor: `this.target = {}`. -/
def ContactObjectBuilder.new : Obj := JSFields.nil

/-- ContactObjectBuilder.email: set-once setter. -/
def ContactObjectBuilder.email (email : String) (t : Obj) : Except BuilderError Obj := do
  checkDuplicate "ContactObject" t "email"
  pure (JSFields.set t "email" (JSValue.vStr email))

/-- ContactObjectBuilder.name: set-once setter. -/
def ContactObjectBuilder.name (name : String) (t : Obj) : Except BuilderError Obj := do
  checkDuplicate "ContactObject" t "name"
  pure (JSFields.set t "name" (JSValue.vStr name))

/-- ContactObjectBuilder.url: set-once setter with URL validation. -/
def ContactObjectBuilder.url (url : String) (t : Obj) : Except BuilderError Obj := do
  checkDuplicate "ContactObject" t "url"
  checkURL "ContactObject" t "url" url
  pure (JSFields.set t "url" (JSValue.vStr url))

/-- ContactObjectBuilder.build: returns the draft. -/
def ContactObjectBuilder.build (t : Obj) : Obj := t

/-- ExampleObjectBuilder constructor: `this.target = {}`. -/
def ExampleObjectBuilder.new : Obj := JSFields.nil

/-- ExampleObjectBuilder.description: set-once setter. -/
def ExampleObjectBuilder.description (description : String) (t : Obj) : Except BuilderError Obj := do
  checkDuplicate "ExampleObject" t "description"
  pure (JSFields.set t "description" (JSValue.vStr description))

/-- ExampleObjectBuilder.summary: set-once setter. -/
def ExampleObjectBuilder.summary (summary : String) (t : Obj) : Except BuilderError Obj := do
  checkDuplicate "ExampleObject" t "summary"
  pure (JSFields.set t "summary" (JSValue.vStr summary))

/-- ExampleObjectBuilder.externalValue: set-once setter, mutually
exclusive with `value`. -/
def ExampleObjectBuilder.externalValue (externalValue : String) (t : Obj) :
    Except BuilderError Obj := do
  checkDuplicate "ExampleObject" t "externalValue"
  checkExclusive "ExampleObject" t "externalValue" "value"
  pure (JSFields.set t "externalValue" (JSValue.vStr externalValue))

/-- ExampleObjectBuilder.value: set-once setter, mutually exclusive with
`externalValue`. -/
def ExampleObjectBuilder.value (value : JSValue) (t : Obj) : Except BuilderError Obj := do
  checkDuplicate "ExampleObject" t "value"
  checkExclusive "ExampleObject" t "value" "externalValue"
  pure (JSFields.set t "value" value)

/-- ExampleObjectBuilder.build: returns the draft. -/
def ExampleObjectBuilder.build (t : Obj) : Obj := t

/-- ExternalDocsObjectBuilder constructor: stores the url into the fresh
draft, then validates it (the constructor throws on an invalid url, so
no draft escapes). -/
def ExternalDocsObjectBuilder.new (url : String) : Except BuilderError Obj := do
  let t := JSFields.set JSFields.nil "url" (JSValue.vStr url)
  checkURL "ExternalDocsObject" t "url" url
  pure t

/-- ExternalDocsObjectBuilder.description: set-once setter. -/
def ExternalDocsObjectBuilder.description (description : String) (t : Obj) :
    Except BuilderError Obj := do
  checkDuplicate "ExternalDocsObject" t "description"
  pure (JSFields.set t "description" (JSValue.vStr description))

/-- ExternalDocsObjectBuilder.build: returns the draft. -/
def ExternalDocsObjectBuilder.build (t : Obj) : Obj := t

/-- HeaderObjectBuilder constructor: despite the class comment saying a
header has no `in` or `name`, the constructor pre-fills
`in: "path"` and the placeholder `name: "-----"`. -/
def HeaderObjectBuilder.new : Obj :=
  Obj.ofList [("in", JSValue.vStr "path"), ("name", JSValue.vStr "-----")]

/-- HeaderObjectBuilder.description: set-once setter. -/
def HeaderObjectBuilder.description (description : String) (t : Obj) : Except BuilderError Obj := do
  checkDuplicate "HeaderObject" t "description"
  pure (JSFields.set t "description" (JSValue.vStr description))

/-- HeaderObjectBuilder.deprecated: set-once setter of a boolean field. -/
def HeaderObjectBuilder.deprecated (deprecated : Bool) (t : Obj) : Except BuilderError Obj := do
  checkDuplicate "HeaderObject" t "deprecated"
  pure (JSFields.set t "deprecated" (JSValue.vBool deprecated))

/-- HeaderObjectBuilder.build: returns the draft. -/
def HeaderObjectBuilder.build (t : Obj) : Obj := t

/-- InfoObjectBuilder constructor: pre-fills the required title and
version. -/
def InfoObjectBuilder.new (title version : String) : Obj :=
  Obj.ofList [("title", JSValue.vStr title), ("version", JSValue.vStr version)]

/-- InfoObjectBuilder.description: set-once setter. -/
def InfoObjectBuilder.description (description : String) (t : Obj) : Except BuilderError Obj := do
  checkDuplicate "InfoObject" t "description"
  pure (JSFields.set t "description" (JSValue.vStr description))

/-- InfoObjectBuilder.termsOfService: set-once setter with URL
validation. -/
def InfoObjectBuilder.termsOfService (termsOfService : String) (t : Obj) :
    Except BuilderError Obj := do
  checkDuplicate "InfoObject" t "termsOfService"
  checkURL "InfoObject" t "termsOfService" termsOfService
  pure (JSFields.set t "termsOfService" (JSValue.vStr termsOfService))

/-- InfoObjectBuilder.build: returns the draft. -/
def InfoObjectBuilder.build (t : Obj) : Obj := t

/-- LicenseObjectBuilder constructor: pre-fills the required name. -/
def LicenseObjectBuilder.new (name : String) : Obj :=
  Obj.ofList [("name", JSValue.vStr name)]

/-- LicenseObjectBuilder.identifier: set-once setter, mutually exclusive
with `url`. -/
def LicenseObjectBuilder.identifier (identifier : String) (t : Obj) : Except BuilderError Obj := do
  checkDuplicate "LicenseObject" t "identifier"
  checkExclusive "LicenseObject" t "identifier" "url"
  pure (JSFields.set t "identifier" (JSValue.vStr identifier))

/-- LicenseObjectBuilder.url: set-once setter, mutually exclusive with
`identifier`, with URL validation. -/
def LicenseObjectBuilder.url (url : String) (t : Obj) : Except BuilderError Obj := do
  checkDuplicate "LicenseObject" t "url"
  checkExclusive "LicenseObject" t "url" "identifier"
  checkURL "LicenseObject" t "url" url
  pure (JSFields.set t "url" (JSValue.vStr url))

/-- LicenseObjectBuilder.build: returns the draft. -/
def LicenseObjectBuilder.build (t : Obj) : Obj := t

/-- LinkObjectBuilder constructor: `this.target = {}`. -/
def LinkObjectBuilder.new : Obj := JSFields.nil

/-- LinkObjectBuilder.description: set-once setter. -/
def LinkObjectBuilder.description (description : String) (t : Obj) : Except BuilderError Obj := do
  checkDuplicate "LinkObject" t "description"
  pure (JSFields.set t "description" (JSValue.vStr description))

/-- LinkObjectBuilder.operationId: set-once setter, mutually exclusive
with `operationRef`. -/
def LinkObjectBuilder.operationId (operationId : String) (t : Obj) : Except BuilderError Obj := do
  checkDuplicate "LinkObject" t "operationId"
  checkExclusive "LinkObject" t "operationId" "operationRef"
  pure (JSFields.set t "operationId" (JSValue.vStr operationId))

/-- LinkObjectBuilder.operationRef: set-once setter, mutually exclusive
with `operationId`. -/
def LinkObjectBuilder.operationRef (operationRef : String) (t : Obj) : Except BuilderError Obj := do
  checkDuplicate "LinkObject" t "operationRef"
  checkExclusive "LinkObject" t "operationRef" "operationId"
  pure (JSFields.set t "operationRef" (JSValue.vStr operationRef))

/-- LinkObjectBuilder.build: returns the draft. -/
def LinkObjectBuilder.build (t : Obj) : Obj := t

/-- MediaTypeObjectBuilder constructor: `this.target = {}`. -/
def MediaTypeObjectBuilder.new : Obj := JSFields.nil

/-- MediaTypeObjectBuilder.example: set-once setter, mutually exclusive
with `examples`. -/
def MediaTypeObjectBuilder.example (ex : JSValue) (t : Obj) : Except BuilderError Obj := do
  checkDuplicate "MediaTypeObject" t "example"
  checkExclusive "MediaTypeObject" t "example" "examples"
  pure (JSFields.set t "example" ex)

/-- MediaTypeObjectBuilder.examples: duplicate check on the `examples`
field itself, exclusivity against `example` (the source spells the new
field name `examles` in the message), then the keyed `Map` add (whose
`checkMap` branch is subsumed by the preceding `checkDuplicate`); the
source names the subject `ParameterObject` in that `checkMap` call. -/
def MediaTypeObjectBuilder.examples (name : String) (ex : JSValue) (t : Obj) :
    Except BuilderError Obj := do
  checkDuplicate "MediaTypeObject" t "examples"
  checkExclusive "MediaTypeObject" t "examles" "example"
  let t ← if truthy (JSFields.get t "examples") then do
      checkMap "ParameterObject" t "examples" name
      pure t
    else
      pure (JSFields.set t "examples" (JSValue.vMap JSFields.nil))
  pure (Obj.setInMap t "examples" name ex)

/-- MediaTypeObjectBuilder.schema: set-once setter. -/
def MediaTypeObjectBuilder.schema (schema : JSValue) (t : Obj) : Except BuilderError Obj := do
  checkDuplicate "MediaTypeObject" t "schema"
  pure (JSFields.set t "schema" schema)

/-- MediaTypeObjectBuilder.build: returns the draft. -/
def MediaTypeObjectBuilder.build (t : Obj) : Obj := t

/-- OpenApiObjectBuilder constructor: pre-fills the required info node and
the fixed format version. -/
def OpenApiObjectBuilder.new (info : JSValue) : Obj :=
  Obj.ofList [("info", info), ("openapi", JSValue.vStr "3.1.0")]

/-- OpenApiObjectBuilder.components: set-once setter. -/
def OpenApiObjectBuilder.components (components : JSValue) (t : Obj) : Except BuilderError Obj := do
  checkDuplicate "OpenApiObject" t "components"
  pure (JSFields.set t "components" components)

/-- OpenApiObjectBuilder.jsonSchemaDialect: set-once setter. -/
def OpenApiObjectBuilder.jsonSchemaDialect (jsonSchemaDialect : String) (t : Obj) :
    Except BuilderError Obj := do
  checkDuplicate "OpenApiObject" t "jsonSchemaDialect"
  pure (JSFields.set t "jsonSchemaDialect" (JSValue.vStr jsonSchemaDialect))

/-- OpenApiObjectBuilder.path: duplicate check on the key inside the
existing paths object (initialized lazily through a fresh
PathsObjectBuilder), then a direct write into that object.  Note there
is no leading-slash syntax check here. -/
def OpenApiObjectBuilder.path (path : String) (pathItem : JSValue) (t : Obj) :
    Except BuilderError Obj := do
  let t ← if truthy (JSFields.get t "paths") then do
      (match JSFields.get t "paths" with
       | JSValue.vObj paths => checkDuplicate "OpenApiObject" paths path
       | _ => pure ())
      pure t
    else
      pure (JSFields.set t "paths" (JSValue.vObj (PathsObjectBuilder.build PathsObjectBuilder.new)))
  pure (Obj.setInObj t "paths" path pathItem)

/-- OpenApiObjectBuilder.security: ordered-collection adder with a
`checkArray` deep-equality guard once the array exists (the source
names the subject `OpenApiProject`). -/
def OpenApiObjectBuilder.security (security : JSValue) (t : Obj) : Except BuilderError Obj := do
  let t ← if truthy (JSFields.get t "security") then do
      checkArray "OpenApiProject" t "security" security
      pure t
    else
      pure (JSFields.set t "security" (JSValue.vArr JSElems.nil))
  pure (Obj.pushArr t "security" security)

/-- OpenApiObjectBuilder.server: ordered-collection adder with a
`checkArray` deep-equality guard once the array exists. -/
def OpenApiObjectBuilder.server (server : JSValue) (t : Obj) : Except BuilderError Obj := do
  let t ← if truthy (JSFields.get t "servers") then do
      checkArray "OpenApiObject" t "servers" server
      pure t
    else
      pure (JSFields.set t "servers" (JSValue.vArr JSElems.nil))
  pure (Obj.pushArr t "servers" server)

/-- OpenApiObjectBuilder.tag: ordered-collection adder with a
`checkArray` deep-equality guard once the array exists (the source
names the subject `OpenApiProject`). -/
def OpenApiObjectBuilder.tag (tag : JSValue) (t : Obj) : Except BuilderError Obj := do
  let t ← if truthy (JSFields.get t "tags") then do
      checkArray "OpenApiProject" t "tags" tag
      pure t
    else
      pure (JSFields.set t "tags" (JSValue.vArr JSElems.nil))
  pure (Obj.pushArr t "tags" tag)

/-- OpenApiObjectBuilder.build: returns the draft. -/
def OpenApiObjectBuilder.build (t : Obj) : Obj := t

/-- OperationObjectBuilder constructor: `this.target = {}`. -/
def OperationObjectBuilder.new : Obj := JSFields.nil

/-- OperationObjectBuilder.deprecated: set-once setter of a boolean
field, guarded by the key-presence based `checkDuplicate`. -/
def OperationObjectBuilder.deprecated (deprecated : Bool) (t : Obj) : Except BuilderError Obj := do
  checkDuplicate "OperationObject" t "deprecated"
  pure (JSFields.set t "deprecated" (JSValue.vBool deprecated))

/-- OperationObjectBuilder.summary: set-once setter. -/
def OperationObjectBuilder.summary (summary : String) (t : Obj) : Except BuilderError Obj := do
  checkDuplicate "OperationObject" t "summary"
  pure (JSFields.set t "summary" (JSValue.vStr summary))

/-- OperationObjectBuilder.build: returns the draft. -/
def OperationObjectBuilder.build (t : Obj) : Obj := t

/-- ParameterObjectBuilder constructor: pre-fills the required in and
name values. -/
def ParameterObjectBuilder.new (name : String) (inValue : String) : Obj :=
  Obj.ofList [("in", JSValue.vStr inValue), ("name", JSValue.vStr name)]

/-- ParameterObjectBuilder.description: set-once setter. -/
def ParameterObjectBuilder.description (description : String) (t : Obj) :
    Except BuilderError Obj := do
  checkDuplicate "ParameterObject" t "description"
  pure (JSFields.set t "description" (JSValue.vStr description))

/-- ParameterObjectBuilder.example: set-once setter, mutually exclusive
with `examples`. -/
def ParameterObjectBuilder.example (ex : JSValue) (t : Obj) : Except BuilderError Obj := do
  checkDuplicate "ParameterObject" t "example"
  checkExclusive "ParameterObject" t "example" "examples"
  pure (JSFields.set t "example" ex)

/-- ParameterObjectBuilder.examples: duplicate check on the `examples`
field itself, exclusivity against `example`, then the keyed `Map` add;
because of the leading `checkDuplicate`, the `checkMap` branch can
never be reached with a success outcome. -/
def ParameterObjectBuilder.examples (name : String) (ex : JSValue) (t : Obj) :
    Except BuilderError Obj := do
  checkDuplicate "ParameterObject" t "examples"
  checkExclusive "ParameterObject" t "examples" "example"
  let t ← if truthy (JSFields.get t "examples") then do
      checkMap "ParameterObject" t "examples" name
      pure t
    else
      pure (JSFields.set t "examples" (JSValue.vMap JSFields.nil))
  pure (Obj.setInMap t "examples" name ex)

/-- ParameterObjectBuilder.build: returns the draft. -/
def ParameterObjectBuilder.build (t : Obj) : Obj := t

/-- PathItemObjectBuilder constructor: `this.target = {}`. -/
def PathItemObjectBuilder.new : Obj := JSFields.nil

/-- PathItemObjectBuilder.get: set-once setter of the GET operation. -/
def PathItemObjectBuilder.get (get : JSValue) (t : Obj) : Except BuilderError Obj := do
  checkDuplicate "PathItemObject" t "get"
  pure (JSFields.set t "get" get)

/-- PathItemObjectBuilder.description: set-once setter. -/
def PathItemObjectBuilder.description (description : String) (t : Obj) :
    Except BuilderError Obj := do
  checkDuplicate "PathItemObject" t "description"
  pure (JSFields.set t "description" (JSValue.vStr description))

/-- PathItemObjectBuilder.build: returns the draft. -/
def PathItemObjectBuilder.build (t : Obj) : Obj := t

/-- ResponsesObjectBuilder constructor: `this.target = {}`. -/
def ResponsesObjectBuilder.new : Obj := JSFields.nil

/-- ResponsesObjectBuilder.default: set-once setter of the default
response. -/
def ResponsesObjectBuilder.default (defaultValue : JSValue) (t : Obj) : Except BuilderError Obj := do
  checkDuplicate "ResponsesObject" t "default"
  pure (JSFields.set t "default" defaultValue)

/-- ResponsesObjectBuilder.statusCode: the duplicate check is performed
on the literal field name `statusCode`, not on the status-code key
being added; the response is then written under the key. -/
def ResponsesObjectBuilder.statusCode (statusCode : String) (response : JSValue) (t : Obj) :
    Except BuilderError Obj := do
  checkDuplicate "ResponsesObject" t "statusCode"
  pure (JSFields.set t statusCode response)

/-- ResponsesObjectBuilder.build: returns the draft. -/
def ResponsesObjectBuilder.build (t : Obj) : Obj := t

/-- SchemaObjectBuilder constructor: pre-fills the required type. -/
def SchemaObjectBuilder.new (type : String) : Obj :=
  Obj.ofList [("type", JSValue.vStr type)]

/-- SchemaObjectBuilder.title: set-once setter. -/
def SchemaObjectBuilder.title (title : String) (t : Obj) : Except BuilderError Obj := do
  checkDuplicate "SchemaObject" t "title"
  pure (JSFields.set t "title" (JSValue.vStr title))

/-- SchemaObjectBuilder.allOf: ordered-collection adder with a
`checkArray` deep-equality guard once the array exists. -/
def SchemaObjectBuilder.allOf (allOf : JSValue) (t : Obj) : Except BuilderError Obj := do
  let t ← if !truthy (JSFields.get t "allOf") then
      pure (JSFields.set t "allOf" (JSValue.vArr JSElems.nil))
    else do
      checkArray "SchemaObject" t "allOf" allOf
      pure t
  pure (Obj.pushArr t "allOf" allOf)

/-- SchemaObjectBuilder.anyOf: ordered-collection adder with a
`checkArray` deep-equality guard once the array exists. -/
def SchemaObjectBuilder.anyOf (anyOf : JSValue) (t : Obj) : Except BuilderError Obj := do
  let t ← if !truthy (JSFields.get t "anyOf") then
      pure (JSFields.set t "anyOf" (JSValue.vArr JSElems.nil))
    else do
      checkArray "SchemaObject" t "anyOf" anyOf
      pure t
  pure (Obj.pushArr t "anyOf" anyOf)

/-- SchemaObjectBuilder.oneOf: ordered-collection adder with a
`checkArray` deep-equality guard once the array exists. -/
def SchemaObjectBuilder.oneOf (oneOf : JSValue) (t : Obj) : Except BuilderError Obj := do
  let t ← if !truthy (JSFields.get t "oneOf") then
      pure (JSFields.set t "oneOf" (JSValue.vArr JSElems.nil))
    else do
      checkArray "SchemaObject" t "oneOf" oneOf
      pure t
  pure (Obj.pushArr t "oneOf" oneOf)

/-- SchemaObjectBuilder.required: ordered-collection adder of required
property names with a `checkArray` deep-equality guard once the array
exists. -/
def SchemaObjectBuilder.required (required : String) (t : Obj) : Except BuilderError Obj := do
  let t ← if !truthy (JSFields.get t "required") then
      pure (JSFields.set t "required" (JSValue.vArr JSElems.nil))
    else do
      checkArray "SchemaObject" t "required" (JSValue.vStr required)
      pure t
  pure (Obj.pushArr t "required" (JSValue.vStr required))

/-- SchemaObjectBuilder.build: returns the draft. -/
def SchemaObjectBuilder.build (t : Obj) : Obj := t

/-- ServerObjectBuilder constructor: stores the url into the fresh draft,
then validates it (the constructor throws on an invalid url, so no
draft escapes). -/
def ServerObjectBuilder.new (url : String) : Except BuilderError Obj := do
  let t := JSFields.set JSFields.nil "url" (JSValue.vStr url)
  checkURL "ServerObject" t "url" url
  pure t

/-- ServerObjectBuilder.description: set-once setter. -/
def ServerObjectBuilder.description (description : String) (t : Obj) : Except BuilderError Obj := do
  checkDuplicate "ServerObject" t "description"
  pure (JSFields.set t "description" (JSValue.vStr description))

/-- ServerObjectBuilder.build: returns the draft. -/
def ServerObjectBuilder.build (t : Obj) : Obj := t

/-- ServerVariableObjectBuilder constructor: pre-fills the required
default value.  The source class declares no build() method (it ends
after the enum setter), so there is deliberately no
`ServerVariableObjectBuilder.build` here. -/
def ServerVariableObjectBuilder.new (defaultValue : String) : Obj :=
  Obj.ofList [("default", JSValue.vStr defaultValue)]

/-- ServerVariableObjectBuilder.description: set-once setter. -/
def ServerVariableObjectBuilder.description (description : String) (t : Obj) :
    Except BuilderError Obj := do
  checkDuplicate "ServerVariableObject" t "description"
  pure (JSFields.set t "description" (JSValue.vStr description))

/-- ServerVariableObjectBuilder.enum: set-once setter of the enumeration
array, which must be non-empty. -/
def ServerVariableObjectBuilder.enum (enumValues : List String) (t : Obj) :
    Except BuilderError Obj := do
  checkDuplicate "ServerVariableObject" t "enum"
  checkEmpty "ServerVariableObject" t "enum" (enumValues.map JSValue.vStr)
  pure (JSFields.set t "enum" (JSValue.vArr (JSElems.ofList (enumValues.map JSValue.vStr))))

/-- TagObjectBuilder constructor: pre-fills the required name. -/
def TagObjectBuilder.new (name : String) : Obj :=
  Obj.ofList [("name", JSValue.vStr name)]

/-- TagObjectBuilder.description: set-once setter. -/
def TagObjectBuilder.description (description : String) (t : Obj) : Except BuilderError Obj := do
  checkDuplicate "TagObject" t "description"
  pure (JSFields.set t "description" (JSValue.vStr description))

/-- TagObjectBuilder.externalDocs: set-once setter. -/
def TagObjectBuilder.externalDocs (externalDocs : JSValue) (t : Obj) : Except BuilderError Obj := do
  checkDuplicate "TagObject" t "externalDocs"
  pure (JSFields.set t "externalDocs" externalDocs)

/-- TagObjectBuilder.build: returns the draft. -/
def TagObjectBuilder.build (t : Obj) : Obj := t

end V31

namespace V30

/-! Builders of src/3.0/Builders.ts.  These predate the error taxonomy:
their guards throw bare `Error` values (kind `plain`), and the
`validateUrl` support function is an empty TODO stub. -/

/-- 3.0 `validateUrl`: its body is only a TODO comment, so every string
is accepted. -/
def validateUrl (_context _url : String) : Except BuilderError Unit :=
  Except.ok ()

/-- 3.0 `validatePath`: rejects, with a bare `Error`, a path that does
not start with a slash. -/
def validatePath (context path : String) : Except BuilderError Unit :=
  if !startsWithSlash path then
    Except.error ⟨ErrKind.plain,
      context ++ ": Path " ++ path ++ " does not start with a slash"⟩
  else Except.ok ()

/-- 3.0 ContactObjectBuilder constructor: `this.target = {}`. -/
def ContactObjectBuilder.new : Obj := JSFields.nil

/-- 3.0 ContactObjectBuilder.url: runs the no-op `validateUrl`, then
writes unconditionally (no set-once or URL enforcement). -/
def ContactObjectBuilder.url (url : String) (t : Obj) : Except BuilderError Obj := do
  validateUrl "ContactObjectBuilder.url" url
  pure (JSFields.set t "url" (JSValue.vStr url))

/-- 3.0 ContactObjectBuilder.build: returns the draft. -/
def ContactObjectBuilder.build (t : Obj) : Obj := t

/-- 3.0 ParameterObjectBuilder constructor: both arguments are optional
and only truthy values are stored. -/
def ParameterObjectBuilder.new (inValue : Option String) (name : Option String) : Obj :=
  let t := JSFields.nil
  let t := match inValue with
    | some s => if truthy (JSValue.vStr s) then JSFields.set t "in" (JSValue.vStr s) else t
    | none => t
  match name with
  | some s => if truthy (JSValue.vStr s) then JSFields.set t "name" (JSValue.vStr s) else t
  | none => t

/-- 3.0 ParameterObjectBuilder.build: throws a bare `Error` at build time
when the required in or name values are missing (or falsy). -/
def ParameterObjectBuilder.build (t : Obj) : Except BuilderError Obj :=
  if !truthy (JSFields.get t "in") then
    Except.error ⟨ErrKind.plain, "ParameterObjectBuilder.build: Missing required in value"⟩
  else if !truthy (JSFields.get t "name") then
    Except.error ⟨ErrKind.plain, "ParameterObjectBuilder.build: Missing required name value"⟩
  else
    Except.ok t

/-- 3.0 HeaderObjectBuilder.build: throws a bare `Error` at build time
when an in or name value is present (headers forbid them). -/
def HeaderObjectBuilder.build (t : Obj) : Except BuilderError Obj :=
  if truthy (JSFields.get t "in") then
    Except.error ⟨ErrKind.plain, "HeaderObjectBuilder.build: in is not allowed on HeaderObject"⟩
  else if truthy (JSFields.get t "name") then
    Except.error ⟨ErrKind.plain, "HeaderObjectBuilder.build: name is not allowed on HeaderObject"⟩
  else
    Except.ok t

/-- 3.0 SchemaObjectBuilder constructor: writes explicit `undefined`
into the description and type keys when the arguments are missing or
falsy (so the keys exist on the draft either way), and adds nullable
only when the argument is supplied. -/
def SchemaObjectBuilder.new (type : Option String) (description : Option String)
    (nullable : Option Bool) : Obj :=
  let descVal := match description with
    | some d => if truthy (JSValue.vStr d) then JSValue.vStr d else JSValue.vUndefined
    | none => JSValue.vUndefined
  let typeVal := match type with
    | some ty => if truthy (JSValue.vStr ty) then JSValue.vStr ty else JSValue.vUndefined
    | none => JSValue.vUndefined
  let t := Obj.ofList [("description", descVal), ("type", typeVal)]
  match nullable with
  | some b => JSFields.set t "nullable" (JSValue.vBool b)
  | none => t

/-- 3.0 SchemaObjectBuilder.build: returns the draft. -/
def SchemaObjectBuilder.build (t : Obj) : Obj := t

/-- 3.0 OpenApiObjectBuilder constructor: pre-fills the fixed format
version, the required info node and an empty paths object. -/
def OpenApiObjectBuilder.new (info : JSValue) : Obj :=
  Obj.ofList [("openapi", JSValue.vStr "3.0.3"), ("info", info), ("paths", JSValue.vObj JSFields.nil)]

/-- 3.0 OpenApiObjectBuilder.pathItem: validates the leading slash (bare
`Error`), rejects a duplicate path key (bare `Error`), then writes into
the paths object. -/
def OpenApiObjectBuilder.pathItem (path : String) (pathItem : JSValue) (t : Obj) :
    Except BuilderError Obj := do
  validatePath "ApiObjectBuilder.pathItem" path
  if truthy (jsIndex (JSFields.get t "paths") path) then
    Except.error ⟨ErrKind.plain,
      "OpenApiObjectBuilder.pathItem: path " ++ path ++ " cannot be specified more than once."⟩
  else
    pure (Obj.setInObj t "paths" path pathItem)

/-- 3.0 OpenApiObjectBuilder.build: returns the draft. -/
def OpenApiObjectBuilder.build (t : Obj) : Obj := t

end V30

/-! Auxiliary lemmas about the draft model and the check helpers.  These
are shared by the claim theorems below. -/

theorem exBindOk {α β : Type} (a : α) (f : α → Except BuilderError β) :
    ((Except.ok a : Except BuilderError α) >>= f) = f a := rfl

theorem exBindErr {α β : Type} (e : BuilderError) (f : α → Except BuilderError β) :
    ((Except.error e : Except BuilderError α) >>= f) = Except.error e := rfl

theorem hasField_set_self : ∀ (o : Obj) (f : String) (v : JSValue),
    JSFields.hasField (JSFields.set o f v) f = true
  | JSFields.nil, f, v => by simp [JSFields.set, JSFields.hasField]
  | JSFields.cons k w rest, f, v => by
    by_cases h : k == f
    · simp [JSFields.set, h, JSFields.hasField]
    · simp [JSFields.set, h, JSFields.hasField, hasField_set_self rest f v]

theorem hasField_set_ne : ∀ (o : Obj) (f g : String) (v : JSValue), f ≠ g →
    JSFields.hasField (JSFields.set o f v) g = JSFields.hasField o g
  | JSFields.nil, f, g, v, hfg => by
    simp [JSFields.set, JSFields.hasField]
    exact fun h => absurd h hfg
  | JSFields.cons k w rest, f, g, v, hfg => by
    by_cases h : k == f
    · have hkg : (k == g) = false := by
        simp only [beq_iff_eq] at h
        simp [h, hfg]
      simp [JSFields.set, h, JSFields.hasField, hkg]
      exact fun hh => absurd hh hfg
    · simp [JSFields.set, h, JSFields.hasField, hasField_set_ne rest f g v hfg]

theorem get_set_self : ∀ (o : Obj) (f : String) (v : JSValue),
    JSFields.get (JSFields.set o f v) f = v
  | JSFields.nil, f, v => by simp [JSFields.set, JSFields.get]
  | JSFields.cons k w rest, f, v => by
    by_cases h : k == f
    · simp [JSFields.set, h, JSFields.get]
    · simp [JSFields.set, h, JSFields.get, get_set_self rest f v]

theorem get_set_ne : ∀ (o : Obj) (f g : String) (v : JSValue), f ≠ g →
    JSFields.get (JSFields.set o f v) g = JSFields.get o g
  | JSFields.nil, f, g, v, hfg => by
    simp [JSFields.set, JSFields.get, hfg]
  | JSFields.cons k w rest, f, g, v, hfg => by
    by_cases h : k == f
    · have hkg : (k == g) = false := by
        simp only [beq_iff_eq] at h
        simp [h, hfg]
      simp [JSFields.set, h, JSFields.get, hkg, hfg]
    · simp [JSFields.set, h, JSFields.get, get_set_ne rest f g v hfg]

theorem set_set_self : ∀ (o : Obj) (f : String) (a b : JSValue),
    JSFields.set (JSFields.set o f a) f b = JSFields.set o f b
  | JSFields.nil, f, a, b => by simp [JSFields.set]
  | JSFields.cons k w rest, f, a, b => by
    by_cases h : k == f
    · simp [JSFields.set, h]
    · simp [JSFields.set, h, set_set_self rest f a b]

theorem get_undef_of_hasField_false : ∀ (o : Obj) (f : String),
    JSFields.hasField o f = false → JSFields.get o f = JSValue.vUndefined
  | JSFields.nil, f, _ => by simp [JSFields.get]
  | JSFields.cons k w rest, f, h => by
    simp [JSFields.hasField] at h
    simp [JSFields.get, h.1, get_undef_of_hasField_false rest f h.2]

/-! Success and failure shapes of the 3.1 set-once setters.  Every 3.1
set-once setter is, literally, `checkDuplicate` on its own field name
followed by zero or more further checks and the final write; the
following lemmas cover the four check sequences that occur. -/

theorem setOnce_S1 (n f : String) (v1 v2 : JSValue) (t t1 : Obj)
    (h : (do checkDuplicate n t f
             pure (JSFields.set t f v1) : Except BuilderError Obj) = Except.ok t1) :
    errKind (do checkDuplicate n t1 f
                pure (JSFields.set t1 f v2) : Except BuilderError Obj) = some ErrKind.duplicate
      ∧ JSFields.get t1 f = v1 := by
  simp only [checkDuplicate] at h
  by_cases hf : JSFields.hasField t f
  · simp [hf, exBindErr] at h
  · simp [hf, exBindOk] at h
    subst h
    refine ⟨?_, get_set_self t f v1⟩
    simp [checkDuplicate, hasField_set_self, exBindErr, errKind]

theorem setOnce_S2 (n f g : String) (v1 v2 : JSValue) (t t1 : Obj)
    (h : (do checkDuplicate n t f
             checkExclusive n t f g
             pure (JSFields.set t f v1) : Except BuilderError Obj) = Except.ok t1) :
    errKind (do checkDuplicate n t1 f
                checkExclusive n t1 f g
                pure (JSFields.set t1 f v2) : Except BuilderError Obj) = some ErrKind.duplicate
      ∧ JSFields.get t1 f = v1 := by
  simp only [checkDuplicate, checkExclusive] at h
  by_cases hf : JSFields.hasField t f
  · simp [hf, exBindErr] at h
  · by_cases hg : JSFields.hasField t g
    · simp [hf, hg, exBindOk, exBindErr] at h
    · simp [hf, hg, exBindOk] at h
      subst h
      refine ⟨?_, get_set_self t f v1⟩
      simp [checkDuplicate, hasField_set_self, exBindErr, errKind]

theorem setOnce_S3 (n f : String) (u1 u2 : String) (t t1 : Obj)
    (h : (do checkDuplicate n t f
             checkURL n t f u1
             pure (JSFields.set t f (JSValue.vStr u1)) : Except BuilderError Obj) = Except.ok t1) :
    errKind (do checkDuplicate n t1 f
                checkURL n t1 f u2
                pure (JSFields.set t1 f (JSValue.vStr u2)) : Except BuilderError Obj)
        = some ErrKind.duplicate
      ∧ JSFields.get t1 f = JSValue.vStr u1 := by
  simp only [checkDuplicate, checkURL] at h
  by_cases hf : JSFields.hasField t f
  · simp [hf, exBindErr] at h
  · by_cases hu : isValidURL u1
    · simp [hf, hu, exBindOk] at h
      subst h
      refine ⟨?_, get_set_self t f _⟩
      simp [checkDuplicate, hasField_set_self, exBindErr, errKind]
    · simp [hf, hu, exBindOk, exBindErr] at h

theorem setOnce_S4 (n f g : String) (u1 u2 : String) (t t1 : Obj)
    (h : (do checkDuplicate n t f
             checkExclusive n t f g
             checkURL n t f u1
             pure (JSFields.set t f (JSValue.vStr u1)) : Except BuilderError Obj) = Except.ok t1) :
    errKind (do checkDuplicate n t1 f
                checkExclusive n t1 f g
                checkURL n t1 f u2
                pure (JSFields.set t1 f (JSValue.vStr u2)) : Except BuilderError Obj)
        = some ErrKind.duplicate
      ∧ JSFields.get t1 f = JSValue.vStr u1 := by
  simp only [checkDuplicate, checkExclusive, checkURL] at h
  by_cases hf : JSFields.hasField t f
  · simp [hf, exBindErr] at h
  · by_cases hg : JSFields.hasField t g
    · simp [hf, hg, exBindOk, exBindErr] at h
    · by_cases hu : isValidURL u1
      · simp [hf, hg, hu, exBindOk] at h
        subst h
        refine ⟨?_, get_set_self t f _⟩
        simp [checkDuplicate, hasField_set_self, exBindErr, errKind]
      · simp [hf, hg, hu, exBindOk, exBindErr] at h

theorem setOnce_S5 (n f : String) (vs1 vs2 : List JSValue) (w1 w2 : JSValue) (t t1 : Obj)
    (h : (do checkDuplicate n t f
             checkEmpty n t f vs1
             pure (JSFields.set t f w1) : Except BuilderError Obj) = Except.ok t1) :
    errKind (do checkDuplicate n t1 f
                checkEmpty n t1 f vs2
                pure (JSFields.set t1 f w2) : Except BuilderError Obj) = some ErrKind.duplicate
      ∧ JSFields.get t1 f = w1 := by
  simp only [checkDuplicate, checkEmpty] at h
  by_cases hf : JSFields.hasField t f
  · simp [hf, exBindErr] at h
  · by_cases he : vs1.length == 0
    · simp [hf, he, exBindOk, exBindErr] at h
    · simp [hf, he, exBindOk] at h
      subst h
      refine ⟨?_, get_set_self t f _⟩
      simp [checkDuplicate, hasField_set_self, exBindErr, errKind]

/-! Success inversion of the exclusive-pair setters, and the failure of
the cross setter afterwards. -/

theorem inv_S2 (n f g : String) (v1 : JSValue) (t t1 : Obj)
    (h : (do checkDuplicate n t f
             checkExclusive n t f g
             pure (JSFields.set t f v1) : Except BuilderError Obj) = Except.ok t1) :
    JSFields.hasField t f = false ∧ JSFields.hasField t g = false
      ∧ t1 = JSFields.set t f v1 := by
  simp only [checkDuplicate, checkExclusive] at h
  by_cases hf : JSFields.hasField t f
  · simp [hf, exBindErr] at h
  · by_cases hg : JSFields.hasField t g
    · simp [hf, hg, exBindOk, exBindErr] at h
    · simp [hf, hg, exBindOk] at h
      exact ⟨by simp [hf], by simp [hg], h.symm⟩

theorem inv_S4 (n f g : String) (u1 : String) (t t1 : Obj)
    (h : (do checkDuplicate n t f
             checkExclusive n t f g
             checkURL n t f u1
             pure (JSFields.set t f (JSValue.vStr u1)) : Except BuilderError Obj) = Except.ok t1) :
    JSFields.hasField t f = false ∧ JSFields.hasField t g = false
      ∧ t1 = JSFields.set t f (JSValue.vStr u1) := by
  simp only [checkDuplicate, checkExclusive, checkURL] at h
  by_cases hf : JSFields.hasField t f
  · simp [hf, exBindErr] at h
  · by_cases hg : JSFields.hasField t g
    · simp [hf, hg, exBindOk, exBindErr] at h
    · by_cases hu : isValidURL u1
      · simp [hf, hg, hu, exBindOk] at h
        exact ⟨by simp [hf], by simp [hg], h.symm⟩
      · simp [hf, hg, hu, exBindOk, exBindErr] at h

theorem excl_second (n n2 fNew f g : String) (v : JSValue) (t : Obj)
    (rest : Except BuilderError Obj)
    (hg : JSFields.hasField t g = false) (hfg : f ≠ g) :
    errKind (do checkDuplicate n (JSFields.set t f v) g
                checkExclusive n2 (JSFields.set t f v) fNew f
                rest) = some ErrKind.exclusive := by
  have h1 : JSFields.hasField (JSFields.set t f v) g = false := by
    rw [hasField_set_ne t f g v hfg]; exact hg
  simp [checkDuplicate, checkExclusive, h1, hasField_set_self, exBindOk, exBindErr, errKind]

theorem examples_ok_inv (n1 n2 nMap key : String) (e : JSValue) (t t2 : Obj)
    (h : (do checkDuplicate n1 t "examples"
             checkExclusive n1 t n2 "example"
             let t ← if truthy (JSFields.get t "examples") then do
                 checkMap nMap t "examples" key
                 pure t
               else
                 pure (JSFields.set t "examples" (JSValue.vMap JSFields.nil))
             pure (Obj.setInMap t "examples" key e) : Except BuilderError Obj) = Except.ok t2) :
    JSFields.hasField t "examples" = false ∧ JSFields.hasField t "example" = false
      ∧ t2 = JSFields.set t "examples" (JSValue.vMap (JSFields.cons key e JSFields.nil)) := by
  simp only [checkDuplicate, checkExclusive] at h
  by_cases hf : JSFields.hasField t "examples"
  · simp [hf, exBindErr] at h
  · by_cases hg : JSFields.hasField t "example"
    · simp [hf, hg, exBindOk, exBindErr] at h
    · have hget : JSFields.get t "examples" = JSValue.vUndefined :=
        get_undef_of_hasField_false t "examples" (by simp [hf])
      simp [hf, hg, exBindOk, hget, truthy, Obj.setInMap, get_set_self, JSValue.mapSet,
        JSFields.set, set_set_self] at h
      exact ⟨by simp [hf], by simp [hg], h.symm⟩

theorem arrA_dup (n f : String) (v : JSValue) (t : Obj) (es : JSElems)
    (hget : JSFields.get t f = JSValue.vArr es)
    (hany : JSElems.any es (fun item => deepEqual item v) = true) :
    errKind (do
        let t ← if truthy (JSFields.get t f) then do
            checkArray n t f v
            pure t
          else
            pure (JSFields.set t f (JSValue.vArr JSElems.nil))
        pure (Obj.pushArr t f v) : Except BuilderError Obj) = some ErrKind.duplicate := by
  simp [hget, truthy, checkArray, hany, exBindErr, exBindOk, errKind]

theorem arrA_append (n f : String) (v : JSValue) (t : Obj) (es : JSElems)
    (hget : JSFields.get t f = JSValue.vArr es)
    (hnone : JSElems.any es (fun item => deepEqual item v) = false) :
    (do
        let t ← if truthy (JSFields.get t f) then do
            checkArray n t f v
            pure t
          else
            pure (JSFields.set t f (JSValue.vArr JSElems.nil))
        pure (Obj.pushArr t f v) : Except BuilderError Obj)
      = Except.ok (JSFields.set t f (JSValue.vArr (JSElems.push es v))) := by
  simp [hget, truthy, checkArray, hnone, exBindOk, Obj.pushArr, JSValue.arrPush]

theorem arrB_dup (n f : String) (v : JSValue) (t : Obj) (es : JSElems)
    (hget : JSFields.get t f = JSValue.vArr es)
    (hany : JSElems.any es (fun item => deepEqual item v) = true) :
    errKind (do
        let t ← if !truthy (JSFields.get t f) then
            pure (JSFields.set t f (JSValue.vArr JSElems.nil))
          else do
            checkArray n t f v
            pure t
        pure (Obj.pushArr t f v) : Except BuilderError Obj) = some ErrKind.duplicate := by
  simp [hget, truthy, checkArray, hany, exBindErr, exBindOk, errKind]

theorem arrB_append (n f : String) (v : JSValue) (t : Obj) (es : JSElems)
    (hget : JSFields.get t f = JSValue.vArr es)
    (hnone : JSElems.any es (fun item => deepEqual item v) = false) :
    (do
        let t ← if !truthy (JSFields.get t f) then
            pure (JSFields.set t f (JSValue.vArr JSElems.nil))
          else do
            checkArray n t f v
            pure t
        pure (Obj.pushArr t f v) : Except BuilderError Obj)
      = Except.ok (JSFields.set t f (JSValue.vArr (JSElems.push es v))) := by
  simp [hget, truthy, checkArray, hnone, exBindOk, Obj.pushArr, JSValue.arrPush]

/-- C1: Set-once enforcement.  For every embedded 3.1 node kind and every
set-once field F of it (every field whose setter is guarded by the
field-name based checkDuplicate), a successful call F(v1) followed by a
second call F(v2) always fails with a DuplicateError, and the draft that
build() returns afterwards still has F equal to v1, never v2.  The
conjunction ranges over all set-once setters of the embedded builders. -/
theorem C1_set_once :
    (∀ (t t1 : Obj) (x y : String), V31.ContactObjectBuilder.email x t = Except.ok t1 →
      errKind (V31.ContactObjectBuilder.email y t1) = some ErrKind.duplicate
        ∧ JSFields.get t1 "email" = (JSValue.vStr x)) ∧
    (∀ (t t1 : Obj) (x y : String), V31.ContactObjectBuilder.name x t = Except.ok t1 →
      errKind (V31.ContactObjectBuilder.name y t1) = some ErrKind.duplicate
        ∧ JSFields.get t1 "name" = (JSValue.vStr x)) ∧
    (∀ (t t1 : Obj) (x y : String), V31.ExampleObjectBuilder.description x t = Except.ok t1 →
      errKind (V31.ExampleObjectBuilder.description y t1) = some ErrKind.duplicate
        ∧ JSFields.get t1 "description" = (JSValue.vStr x)) ∧
    (∀ (t t1 : Obj) (x y : String), V31.ExampleObjectBuilder.summary x t = Except.ok t1 →
      errKind (V31.ExampleObjectBuilder.summary y t1) = some ErrKind.duplicate
        ∧ JSFields.get t1 "summary" = (JSValue.vStr x)) ∧
    (∀ (t t1 : Obj) (x y : String), V31.ExternalDocsObjectBuilder.description x t = Except.ok t1 →
      errKind (V31.ExternalDocsObjectBuilder.description y t1) = some ErrKind.duplicate
        ∧ JSFields.get t1 "description" = (JSValue.vStr x)) ∧
    (∀ (t t1 : Obj) (x y : String), V31.HeaderObjectBuilder.description x t = Except.ok t1 →
      errKind (V31.HeaderObjectBuilder.description y t1) = some ErrKind.duplicate
        ∧ JSFields.get t1 "description" = (JSValue.vStr x)) ∧
    (∀ (t t1 : Obj) (x y : Bool), V31.HeaderObjectBuilder.deprecated x t = Except.ok t1 →
      errKind (V31.HeaderObjectBuilder.deprecated y t1) = some ErrKind.duplicate
        ∧ JSFields.get t1 "deprecated" = (JSValue.vBool x)) ∧
    (∀ (t t1 : Obj) (x y : String), V31.InfoObjectBuilder.description x t = Except.ok t1 →
      errKind (V31.InfoObjectBuilder.description y t1) = some ErrKind.duplicate
        ∧ JSFields.get t1 "description" = (JSValue.vStr x)) ∧
    (∀ (t t1 : Obj) (x y : String), V31.LinkObjectBuilder.description x t = Except.ok t1 →
      errKind (V31.LinkObjectBuilder.description y t1) = some ErrKind.duplicate
        ∧ JSFields.get t1 "description" = (JSValue.vStr x)) ∧
    (∀ (t t1 : Obj) (x y : JSValue), V31.MediaTypeObjectBuilder.schema x t = Except.ok t1 →
      errKind (V31.MediaTypeObjectBuilder.schema y t1) = some ErrKind.duplicate
        ∧ JSFields.get t1 "schema" = x) ∧
    (∀ (t t1 : Obj) (x y : JSValue), V31.OpenApiObjectBuilder.components x t = Except.ok t1 →
      errKind (V31.OpenApiObjectBuilder.components y t1) = some ErrKind.duplicate
        ∧ JSFields.get t1 "components" = x) ∧
    (∀ (t t1 : Obj) (x y : String), V31.OpenApiObjectBuilder.jsonSchemaDialect x t = Except.ok t1 →
      errKind (V31.OpenApiObjectBuilder.jsonSchemaDialect y t1) = some ErrKind.duplicate
        ∧ JSFields.get t1 "jsonSchemaDialect" = (JSValue.vStr x)) ∧
    (∀ (t t1 : Obj) (x y : Bool), V31.OperationObjectBuilder.deprecated x t = Except.ok t1 →
      errKind (V31.OperationObjectBuilder.deprecated y t1) = some ErrKind.duplicate
        ∧ JSFields.get t1 "deprecated" = (JSValue.vBool x)) ∧
    (∀ (t t1 : Obj) (x y : String), V31.OperationObjectBuilder.summary x t = Except.ok t1 →
      errKind (V31.OperationObjectBuilder.summary y t1) = some ErrKind.duplicate
        ∧ JSFields.get t1 "summary" = (JSValue.vStr x)) ∧
    (∀ (t t1 : Obj) (x y : String), V31.ParameterObjectBuilder.description x t = Except.ok t1 →
      errKind (V31.ParameterObjectBuilder.description y t1) = some ErrKind.duplicate
        ∧ JSFields.get t1 "description" = (JSValue.vStr x)) ∧
    (∀ (t t1 : Obj) (x y : JSValue), V31.PathItemObjectBuilder.get x t = Except.ok t1 →
      errKind (V31.PathItemObjectBuilder.get y t1) = some ErrKind.duplicate
        ∧ JSFields.get t1 "get" = x) ∧
    (∀ (t t1 : Obj) (x y : String), V31.PathItemObjectBuilder.description x t = Except.ok t1 →
      errKind (V31.PathItemObjectBuilder.description y t1) = some ErrKind.duplicate
        ∧ JSFields.get t1 "description" = (JSValue.vStr x)) ∧
    (∀ (t t1 : Obj) (x y : JSValue), V31.ResponsesObjectBuilder.default x t = Except.ok t1 →
      errKind (V31.ResponsesObjectBuilder.default y t1) = some ErrKind.duplicate
        ∧ JSFields.get t1 "default" = x) ∧
    (∀ (t t1 : Obj) (x y : String), V31.SchemaObjectBuilder.title x t = Except.ok t1 →
      errKind (V31.SchemaObjectBuilder.title y t1) = some ErrKind.duplicate
        ∧ JSFields.get t1 "title" = (JSValue.vStr x)) ∧
    (∀ (t t1 : Obj) (x y : String), V31.ServerObjectBuilder.description x t = Except.ok t1 →
      errKind (V31.ServerObjectBuilder.description y t1) = some ErrKind.duplicate
        ∧ JSFields.get t1 "description" = (JSValue.vStr x)) ∧
    (∀ (t t1 : Obj) (x y : String), V31.ServerVariableObjectBuilder.description x t = Except.ok t1 →
      errKind (V31.ServerVariableObjectBuilder.description y t1) = some ErrKind.duplicate
        ∧ JSFields.get t1 "description" = (JSValue.vStr x)) ∧
    (∀ (t t1 : Obj) (x y : String), V31.TagObjectBuilder.description x t = Except.ok t1 →
      errKind (V31.TagObjectBuilder.description y t1) = some ErrKind.duplicate
        ∧ JSFields.get t1 "description" = (JSValue.vStr x)) ∧
    (∀ (t t1 : Obj) (x y : JSValue), V31.TagObjectBuilder.externalDocs x t = Except.ok t1 →
      errKind (V31.TagObjectBuilder.externalDocs y t1) = some ErrKind.duplicate
        ∧ JSFields.get t1 "externalDocs" = x) ∧
    (∀ (t t1 : Obj) (x y : String), V31.ExampleObjectBuilder.externalValue x t = Except.ok t1 →
      errKind (V31.ExampleObjectBuilder.externalValue y t1) = some ErrKind.duplicate
        ∧ JSFields.get t1 "externalValue" = (JSValue.vStr x)) ∧
    (∀ (t t1 : Obj) (x y : JSValue), V31.ExampleObjectBuilder.value x t = Except.ok t1 →
      errKind (V31.ExampleObjectBuilder.value y t1) = some ErrKind.duplicate
        ∧ JSFields.get t1 "value" = x) ∧
    (∀ (t t1 : Obj) (x y : String), V31.LicenseObjectBuilder.identifier x t = Except.ok t1 →
      errKind (V31.LicenseObjectBuilder.identifier y t1) = some ErrKind.duplicate
        ∧ JSFields.get t1 "identifier" = (JSValue.vStr x)) ∧
    (∀ (t t1 : Obj) (x y : String), V31.LinkObjectBuilder.operationId x t = Except.ok t1 →
      errKind (V31.LinkObjectBuilder.operationId y t1) = some ErrKind.duplicate
        ∧ JSFields.get t1 "operationId" = (JSValue.vStr x)) ∧
    (∀ (t t1 : Obj) (x y : String), V31.LinkObjectBuilder.operationRef x t = Except.ok t1 →
      errKind (V31.LinkObjectBuilder.operationRef y t1) = some ErrKind.duplicate
        ∧ JSFields.get t1 "operationRef" = (JSValue.vStr x)) ∧
    (∀ (t t1 : Obj) (x y : JSValue), V31.MediaTypeObjectBuilder.example x t = Except.ok t1 →
      errKind (V31.MediaTypeObjectBuilder.example y t1) = some ErrKind.duplicate
        ∧ JSFields.get t1 "example" = x) ∧
    (∀ (t t1 : Obj) (x y : JSValue), V31.ParameterObjectBuilder.example x t = Except.ok t1 →
      errKind (V31.ParameterObjectBuilder.example y t1) = some ErrKind.duplicate
        ∧ JSFields.get t1 "example" = x) ∧
    (∀ (t t1 : Obj) (x y : String), V31.ContactObjectBuilder.url x t = Except.ok t1 →
      errKind (V31.ContactObjectBuilder.url y t1) = some ErrKind.duplicate
        ∧ JSFields.get t1 "url" = (JSValue.vStr x)) ∧
    (∀ (t t1 : Obj) (x y : String), V31.InfoObjectBuilder.termsOfService x t = Except.ok t1 →
      errKind (V31.InfoObjectBuilder.termsOfService y t1) = some ErrKind.duplicate
        ∧ JSFields.get t1 "termsOfService" = (JSValue.vStr x)) ∧
    (∀ (t t1 : Obj) (x y : String), V31.LicenseObjectBuilder.url x t = Except.ok t1 →
      errKind (V31.LicenseObjectBuilder.url y t1) = some ErrKind.duplicate
        ∧ JSFields.get t1 "url" = JSValue.vStr x) ∧
    (∀ (t t1 : Obj) (xs ys : List String), V31.ServerVariableObjectBuilder.enum xs t = Except.ok t1 →
      errKind (V31.ServerVariableObjectBuilder.enum ys t1) = some ErrKind.duplicate
        ∧ JSFields.get t1 "enum" = JSValue.vArr (JSElems.ofList (xs.map JSValue.vStr))) :=
  ⟨fun t t1 x y h => setOnce_S1 "ContactObject" "email" (JSValue.vStr x) (JSValue.vStr y) t t1 h,
   fun t t1 x y h => setOnce_S1 "ContactObject" "name" (JSValue.vStr x) (JSValue.vStr y) t t1 h,
   fun t t1 x y h => setOnce_S1 "ExampleObject" "description" (JSValue.vStr x) (JSValue.vStr y) t t1 h,
   fun t t1 x y h => setOnce_S1 "ExampleObject" "summary" (JSValue.vStr x) (JSValue.vStr y) t t1 h,
   fun t t1 x y h => setOnce_S1 "ExternalDocsObject" "description" (JSValue.vStr x) (JSValue.vStr y) t t1 h,
   fun t t1 x y h => setOnce_S1 "HeaderObject" "description" (JSValue.vStr x) (JSValue.vStr y) t t1 h,
   fun t t1 x y h => setOnce_S1 "HeaderObject" "deprecated" (JSValue.vBool x) (JSValue.vBool y) t t1 h,
   fun t t1 x y h => setOnce_S1 "InfoObject" "description" (JSValue.vStr x) (JSValue.vStr y) t t1 h,
   fun t t1 x y h => setOnce_S1 "LinkObject" "description" (JSValue.vStr x) (JSValue.vStr y) t t1 h,
   fun t t1 x y h => setOnce_S1 "MediaTypeObject" "schema" x y t t1 h,
   fun t t1 x y h => setOnce_S1 "OpenApiObject" "components" x y t t1 h,
   fun t t1 x y h => setOnce_S1 "OpenApiObject" "jsonSchemaDialect" (JSValue.vStr x) (JSValue.vStr y) t t1 h,
   fun t t1 x y h => setOnce_S1 "OperationObject" "deprecated" (JSValue.vBool x) (JSValue.vBool y) t t1 h,
   fun t t1 x y h => setOnce_S1 "OperationObject" "summary" (JSValue.vStr x) (JSValue.vStr y) t t1 h,
   fun t t1 x y h => setOnce_S1 "ParameterObject" "description" (JSValue.vStr x) (JSValue.vStr y) t t1 h,
   fun t t1 x y h => setOnce_S1 "PathItemObject" "get" x y t t1 h,
   fun t t1 x y h => setOnce_S1 "PathItemObject" "description" (JSValue.vStr x) (JSValue.vStr y) t t1 h,
   fun t t1 x y h => setOnce_S1 "ResponsesObject" "default" x y t t1 h,
   fun t t1 x y h => setOnce_S1 "SchemaObject" "title" (JSValue.vStr x) (JSValue.vStr y) t t1 h,
   fun t t1 x y h => setOnce_S1 "ServerObject" "description" (JSValue.vStr x) (JSValue.vStr y) t t1 h,
   fun t t1 x y h => setOnce_S1 "ServerVariableObject" "description" (JSValue.vStr x) (JSValue.vStr y) t t1 h,
   fun t t1 x y h => setOnce_S1 "TagObject" "description" (JSValue.vStr x) (JSValue.vStr y) t t1 h,
   fun t t1 x y h => setOnce_S1 "TagObject" "externalDocs" x y t t1 h,
   fun t t1 x y h => setOnce_S2 "ExampleObject" "externalValue" "value" (JSValue.vStr x) (JSValue.vStr y) t t1 h,
   fun t t1 x y h => setOnce_S2 "ExampleObject" "value" "externalValue" x y t t1 h,
   fun t t1 x y h => setOnce_S2 "LicenseObject" "identifier" "url" (JSValue.vStr x) (JSValue.vStr y) t t1 h,
   fun t t1 x y h => setOnce_S2 "LinkObject" "operationId" "operationRef" (JSValue.vStr x) (JSValue.vStr y) t t1 h,
   fun t t1 x y h => setOnce_S2 "LinkObject" "operationRef" "operationId" (JSValue.vStr x) (JSValue.vStr y) t t1 h,
   fun t t1 x y h => setOnce_S2 "MediaTypeObject" "example" "examples" x y t t1 h,
   fun t t1 x y h => setOnce_S2 "ParameterObject" "example" "examples" x y t t1 h,
   fun t t1 x y h => setOnce_S3 "ContactObject" "url" x y t t1 h,
   fun t t1 x y h => setOnce_S3 "InfoObject" "termsOfService" x y t t1 h,
   fun t t1 x y h => setOnce_S4 "LicenseObject" "url" "identifier" x y t t1 h,
   fun t t1 xs ys h => setOnce_S5 "ServerVariableObject" "enum" (xs.map JSValue.vStr) (ys.map JSValue.vStr) (JSValue.vArr (JSElems.ofList (xs.map JSValue.vStr))) (JSValue.vArr (JSElems.ofList (ys.map JSValue.vStr))) t t1 h⟩

/-- Witness for C1 at a concrete input: a second email call on a
ContactObject draft that already holds the email a is a DuplicateError,
and the draft keeps a. -/
theorem C1_set_once_witness :
    errKind (V31.ContactObjectBuilder.email "b"
        (JSFields.cons "email" (JSValue.vStr "a") JSFields.nil)) = some ErrKind.duplicate
      ∧ JSFields.get (JSFields.cons "email" (JSValue.vStr "a") JSFields.nil) "email"
          = JSValue.vStr "a" :=
  C1_set_once.1 JSFields.nil (JSFields.cons "email" (JSValue.vStr "a") JSFields.nil) "a" "b" rfl

/-- C3: Mutual-exclusion symmetry and atomicity over the five exclusive
pairs: LicenseObject identifier and url, ExampleObject value and
externalValue, LinkObject operationId and operationRef, ParameterObject
example and examples, MediaTypeObject example and examples.  In either
order, the second call of the other member fails with an ExclusiveError,
and the failing call returns no modified draft (in the source every
check precedes every write, so the draft is untouched). -/
theorem C3_mutual_exclusion :
    (∀ (t t1 t2 : Obj) (x y : String),
      V31.LicenseObjectBuilder.identifier x t = Except.ok t1 →
      V31.LicenseObjectBuilder.url y t = Except.ok t2 →
      errKind (V31.LicenseObjectBuilder.url y t1) = some ErrKind.exclusive
        ∧ errKind (V31.LicenseObjectBuilder.identifier x t2) = some ErrKind.exclusive) ∧
    (∀ (t t1 t2 : Obj) (x : JSValue) (y : String),
      V31.ExampleObjectBuilder.value x t = Except.ok t1 →
      V31.ExampleObjectBuilder.externalValue y t = Except.ok t2 →
      errKind (V31.ExampleObjectBuilder.externalValue y t1) = some ErrKind.exclusive
        ∧ errKind (V31.ExampleObjectBuilder.value x t2) = some ErrKind.exclusive) ∧
    (∀ (t t1 t2 : Obj) (x y : String),
      V31.LinkObjectBuilder.operationId x t = Except.ok t1 →
      V31.LinkObjectBuilder.operationRef y t = Except.ok t2 →
      errKind (V31.LinkObjectBuilder.operationRef y t1) = some ErrKind.exclusive
        ∧ errKind (V31.LinkObjectBuilder.operationId x t2) = some ErrKind.exclusive) ∧
    (∀ (t t1 t2 : Obj) (x e : JSValue) (key : String),
      V31.ParameterObjectBuilder.example x t = Except.ok t1 →
      V31.ParameterObjectBuilder.examples key e t = Except.ok t2 →
      errKind (V31.ParameterObjectBuilder.examples key e t1) = some ErrKind.exclusive
        ∧ errKind (V31.ParameterObjectBuilder.example x t2) = some ErrKind.exclusive) ∧
    (∀ (t t1 t2 : Obj) (x e : JSValue) (key : String),
      V31.MediaTypeObjectBuilder.example x t = Except.ok t1 →
      V31.MediaTypeObjectBuilder.examples key e t = Except.ok t2 →
      errKind (V31.MediaTypeObjectBuilder.examples key e t1) = some ErrKind.exclusive
        ∧ errKind (V31.MediaTypeObjectBuilder.example x t2) = some ErrKind.exclusive) := by
  refine ⟨?_, ?_, ?_, ?_, ?_⟩
  · intro t t1 t2 x y h1 h2
    obtain ⟨hf1, hg1, ht1⟩ :=
      inv_S2 "LicenseObject" "identifier" "url" (JSValue.vStr x) t t1 h1
    obtain ⟨hf2, hg2, ht2⟩ := inv_S4 "LicenseObject" "url" "identifier" y t t2 h2
    subst ht1; subst ht2
    constructor
    · exact excl_second "LicenseObject" "LicenseObject" "url" "identifier" "url"
        (JSValue.vStr x) t _ hf2 (by decide)
    · exact excl_second "LicenseObject" "LicenseObject" "identifier" "url" "identifier"
        (JSValue.vStr y) t _ hf1 (by decide)
  · intro t t1 t2 x y h1 h2
    obtain ⟨hf1, hg1, ht1⟩ :=
      inv_S2 "ExampleObject" "value" "externalValue" x t t1 h1
    obtain ⟨hf2, hg2, ht2⟩ :=
      inv_S2 "ExampleObject" "externalValue" "value" (JSValue.vStr y) t t2 h2
    subst ht1; subst ht2
    constructor
    · exact excl_second "ExampleObject" "ExampleObject" "externalValue" "value" "externalValue"
        x t _ hf2 (by decide)
    · exact excl_second "ExampleObject" "ExampleObject" "value" "externalValue" "value"
        (JSValue.vStr y) t _ hf1 (by decide)
  · intro t t1 t2 x y h1 h2
    obtain ⟨hf1, hg1, ht1⟩ :=
      inv_S2 "LinkObject" "operationId" "operationRef" (JSValue.vStr x) t t1 h1
    obtain ⟨hf2, hg2, ht2⟩ :=
      inv_S2 "LinkObject" "operationRef" "operationId" (JSValue.vStr y) t t2 h2
    subst ht1; subst ht2
    constructor
    · exact excl_second "LinkObject" "LinkObject" "operationRef" "operationId" "operationRef"
        (JSValue.vStr x) t _ hf2 (by decide)
    · exact excl_second "LinkObject" "LinkObject" "operationId" "operationRef" "operationId"
        (JSValue.vStr y) t _ hf1 (by decide)
  · intro t t1 t2 x e key h1 h2
    obtain ⟨hf1, hg1, ht1⟩ :=
      inv_S2 "ParameterObject" "example" "examples" x t t1 h1
    obtain ⟨hf2, hg2, ht2⟩ :=
      examples_ok_inv "ParameterObject" "examples" "ParameterObject" key e t t2 h2
    subst ht1; subst ht2
    constructor
    · exact excl_second "ParameterObject" "ParameterObject" "examples" "example" "examples"
        x t _ hg1 (by decide)
    · exact excl_second "ParameterObject" "ParameterObject" "example" "examples" "example"
        (JSValue.vMap (JSFields.cons key e JSFields.nil)) t _ hg2 (by decide)
  · intro t t1 t2 x e key h1 h2
    obtain ⟨hf1, hg1, ht1⟩ :=
      inv_S2 "MediaTypeObject" "example" "examples" x t t1 h1
    obtain ⟨hf2, hg2, ht2⟩ :=
      examples_ok_inv "MediaTypeObject" "examles" "ParameterObject" key e t t2 h2
    subst ht1; subst ht2
    constructor
    · exact excl_second "MediaTypeObject" "MediaTypeObject" "examles" "example" "examples"
        x t _ hg1 (by decide)
    · exact excl_second "MediaTypeObject" "MediaTypeObject" "example" "examples" "example"
        (JSValue.vMap (JSFields.cons key e JSFields.nil)) t _ hg2 (by decide)

/-- Witness for C3 at a concrete input: on a License builder for MIT,
identifier then url fails Exclusive, as does url then identifier. -/
theorem C3_mutual_exclusion_witness :
    errKind (V31.LicenseObjectBuilder.url "https://example.com/x"
        (JSFields.cons "name" (JSValue.vStr "MIT")
          (JSFields.cons "identifier" (JSValue.vStr "Apache-2.0") JSFields.nil)))
      = some ErrKind.exclusive
    ∧ errKind (V31.LicenseObjectBuilder.identifier "Apache-2.0"
        (JSFields.cons "name" (JSValue.vStr "MIT")
          (JSFields.cons "url" (JSValue.vStr "https://example.com/x") JSFields.nil)))
      = some ErrKind.exclusive :=
  C3_mutual_exclusion.1
    (JSFields.cons "name" (JSValue.vStr "MIT") JSFields.nil)
    (JSFields.cons "name" (JSValue.vStr "MIT")
      (JSFields.cons "identifier" (JSValue.vStr "Apache-2.0") JSFields.nil))
    (JSFields.cons "name" (JSValue.vStr "MIT")
      (JSFields.cons "url" (JSValue.vStr "https://example.com/x") JSFields.nil))
    "Apache-2.0" "https://example.com/x" rfl rfl

/-- C10: the field-name based checkDuplicate fires on key presence, not
truthiness: it fails whenever the key exists, and in particular
OperationObjectBuilder.deprecated(false) followed by deprecated(v)
fails with a DuplicateError even though the stored value false is
falsy. -/
theorem C10_falsy_set_once :
    (∀ (n f : String) (t : Obj), JSFields.hasField t f = true →
      errKind (checkDuplicate n t f) = some ErrKind.duplicate) ∧
    (∀ (t t1 : Obj), V31.OperationObjectBuilder.deprecated false t = Except.ok t1 →
      ∀ (v2 : Bool),
        errKind (V31.OperationObjectBuilder.deprecated v2 t1) = some ErrKind.duplicate) :=
  ⟨fun n f t h => by simp [checkDuplicate, h, errKind],
   fun t t1 h v2 =>
    (setOnce_S1 "OperationObject" "deprecated" (JSValue.vBool false) (JSValue.vBool v2)
      t t1 h).1⟩

/-- Witness for C10 at a concrete input: deprecated(false) then
deprecated(true) on a fresh OperationObject builder. -/
theorem C10_falsy_set_once_witness :
    errKind (V31.OperationObjectBuilder.deprecated true
        (JSFields.cons "deprecated" (JSValue.vBool false) JSFields.nil))
      = some ErrKind.duplicate :=
  C10_falsy_set_once.2 JSFields.nil
    (JSFields.cons "deprecated" (JSValue.vBool false) JSFields.nil) rfl true

/-- C8: Ordered-collection duplicate rejection by structural equality,
for the checkArray-guarded adders OpenApiObjectBuilder.server, .tag,
.security and SchemaObjectBuilder.allOf, .anyOf, .oneOf, .required:
once the list exists, inserting a value deeply equal to an existing
element is a DuplicateError, and a value deeply equal to none is
appended; the final conjunct exhibits insensitivity of deepEqual to
property enumeration order on nested objects. -/
theorem C8_array_dedup :
    (∀ (t : Obj) (v : JSValue) (es : JSElems), JSFields.get t "servers" = JSValue.vArr es →
      JSElems.any es (fun item => deepEqual item v) = true →
      errKind (V31.OpenApiObjectBuilder.server v t) = some ErrKind.duplicate) ∧
    (∀ (t : Obj) (v : JSValue) (es : JSElems), JSFields.get t "servers" = JSValue.vArr es →
      JSElems.any es (fun item => deepEqual item v) = false →
      V31.OpenApiObjectBuilder.server v t
        = Except.ok (JSFields.set t "servers" (JSValue.vArr (JSElems.push es v)))) ∧
    (∀ (t : Obj) (v : JSValue) (es : JSElems), JSFields.get t "tags" = JSValue.vArr es →
      JSElems.any es (fun item => deepEqual item v) = true →
      errKind (V31.OpenApiObjectBuilder.tag v t) = some ErrKind.duplicate) ∧
    (∀ (t : Obj) (v : JSValue) (es : JSElems), JSFields.get t "tags" = JSValue.vArr es →
      JSElems.any es (fun item => deepEqual item v) = false →
      V31.OpenApiObjectBuilder.tag v t
        = Except.ok (JSFields.set t "tags" (JSValue.vArr (JSElems.push es v)))) ∧
    (∀ (t : Obj) (v : JSValue) (es : JSElems), JSFields.get t "security" = JSValue.vArr es →
      JSElems.any es (fun item => deepEqual item v) = true →
      errKind (V31.OpenApiObjectBuilder.security v t) = some ErrKind.duplicate) ∧
    (∀ (t : Obj) (v : JSValue) (es : JSElems), JSFields.get t "security" = JSValue.vArr es →
      JSElems.any es (fun item => deepEqual item v) = false →
      V31.OpenApiObjectBuilder.security v t
        = Except.ok (JSFields.set t "security" (JSValue.vArr (JSElems.push es v)))) ∧
    (∀ (t : Obj) (v : JSValue) (es : JSElems), JSFields.get t "allOf" = JSValue.vArr es →
      JSElems.any es (fun item => deepEqual item v) = true →
      errKind (V31.SchemaObjectBuilder.allOf v t) = some ErrKind.duplicate) ∧
    (∀ (t : Obj) (v : JSValue) (es : JSElems), JSFields.get t "allOf" = JSValue.vArr es →
      JSElems.any es (fun item => deepEqual item v) = false →
      V31.SchemaObjectBuilder.allOf v t
        = Except.ok (JSFields.set t "allOf" (JSValue.vArr (JSElems.push es v)))) ∧
    (∀ (t : Obj) (v : JSValue) (es : JSElems), JSFields.get t "anyOf" = JSValue.vArr es →
      JSElems.any es (fun item => deepEqual item v) = true →
      errKind (V31.SchemaObjectBuilder.anyOf v t) = some ErrKind.duplicate) ∧
    (∀ (t : Obj) (v : JSValue) (es : JSElems), JSFields.get t "anyOf" = JSValue.vArr es →
      JSElems.any es (fun item => deepEqual item v) = false →
      V31.SchemaObjectBuilder.anyOf v t
        = Except.ok (JSFields.set t "anyOf" (JSValue.vArr (JSElems.push es v)))) ∧
    (∀ (t : Obj) (v : JSValue) (es : JSElems), JSFields.get t "oneOf" = JSValue.vArr es →
      JSElems.any es (fun item => deepEqual item v) = true →
      errKind (V31.SchemaObjectBuilder.oneOf v t) = some ErrKind.duplicate) ∧
    (∀ (t : Obj) (v : JSValue) (es : JSElems), JSFields.get t "oneOf" = JSValue.vArr es →
      JSElems.any es (fun item => deepEqual item v) = false →
      V31.SchemaObjectBuilder.oneOf v t
        = Except.ok (JSFields.set t "oneOf" (JSValue.vArr (JSElems.push es v)))) ∧
    (∀ (t : Obj) (x : String) (es : JSElems), JSFields.get t "required" = JSValue.vArr es →
      JSElems.any es (fun item => deepEqual item (JSValue.vStr x)) = true →
      errKind (V31.SchemaObjectBuilder.required x t) = some ErrKind.duplicate) ∧
    (∀ (t : Obj) (x : String) (es : JSElems), JSFields.get t "required" = JSValue.vArr es →
      JSElems.any es (fun item => deepEqual item (JSValue.vStr x)) = false →
      V31.SchemaObjectBuilder.required x t
        = Except.ok (JSFields.set t "required" (JSValue.vArr (JSElems.push es (JSValue.vStr x))))) ∧
    (deepEqual
      (JSValue.vObj (JSFields.cons "a" (JSValue.vNum 1)
        (JSFields.cons "b" (JSValue.vObj (JSFields.cons "c" (JSValue.vStr "x") JSFields.nil))
          JSFields.nil)))
      (JSValue.vObj (JSFields.cons "b"
          (JSValue.vObj (JSFields.cons "c" (JSValue.vStr "x") JSFields.nil))
        (JSFields.cons "a" (JSValue.vNum 1) JSFields.nil))) = true) :=
  ⟨fun t v es hget hany => arrA_dup "OpenApiObject" "servers" v t es hget hany,
   fun t v es hget hnone => arrA_append "OpenApiObject" "servers" v t es hget hnone,
   fun t v es hget hany => arrA_dup "OpenApiProject" "tags" v t es hget hany,
   fun t v es hget hnone => arrA_append "OpenApiProject" "tags" v t es hget hnone,
   fun t v es hget hany => arrA_dup "OpenApiProject" "security" v t es hget hany,
   fun t v es hget hnone => arrA_append "OpenApiProject" "security" v t es hget hnone,
   fun t v es hget hany => arrB_dup "SchemaObject" "allOf" v t es hget hany,
   fun t v es hget hnone => arrB_append "SchemaObject" "allOf" v t es hget hnone,
   fun t v es hget hany => arrB_dup "SchemaObject" "anyOf" v t es hget hany,
   fun t v es hget hnone => arrB_append "SchemaObject" "anyOf" v t es hget hnone,
   fun t v es hget hany => arrB_dup "SchemaObject" "oneOf" v t es hget hany,
   fun t v es hget hnone => arrB_append "SchemaObject" "oneOf" v t es hget hnone,
   fun t x es hget hany => arrB_dup "SchemaObject" "required" (JSValue.vStr x) t es hget hany,
   fun t x es hget hnone => arrB_append "SchemaObject" "required" (JSValue.vStr x) t es hget hnone,
   rfl⟩

/-- Witness for C8 at a concrete input: adding a server that is
structurally equal to (but a different object than) the one already in
the servers array is a DuplicateError, while a distinct required name
is appended. -/
theorem C8_array_dedup_witness :
    errKind (V31.OpenApiObjectBuilder.server
        (JSValue.vObj (JSFields.cons "url" (JSValue.vStr "https://s.example") JSFields.nil))
        (JSFields.cons "servers"
          (JSValue.vArr (JSElems.cons
            (JSValue.vObj (JSFields.cons "url" (JSValue.vStr "https://s.example") JSFields.nil))
            JSElems.nil))
          JSFields.nil)) = some ErrKind.duplicate
    ∧ V31.SchemaObjectBuilder.required "b"
        (JSFields.cons "required" (JSValue.vArr (JSElems.cons (JSValue.vStr "a") JSElems.nil))
          JSFields.nil)
      = Except.ok (JSFields.cons "required"
          (JSValue.vArr (JSElems.cons (JSValue.vStr "a")
            (JSElems.cons (JSValue.vStr "b") JSElems.nil)))
          JSFields.nil) :=
  ⟨C8_array_dedup.1
    (JSFields.cons "servers"
      (JSValue.vArr (JSElems.cons
        (JSValue.vObj (JSFields.cons "url" (JSValue.vStr "https://s.example") JSFields.nil))
        JSElems.nil))
      JSFields.nil)
    (JSValue.vObj (JSFields.cons "url" (JSValue.vStr "https://s.example") JSFields.nil))
    (JSElems.cons
      (JSValue.vObj (JSFields.cons "url" (JSValue.vStr "https://s.example") JSFields.nil))
      JSElems.nil)
    rfl rfl,
   C8_array_dedup.2.2.2.2.2.2.2.2.2.2.2.2.2.1
    (JSFields.cons "required" (JSValue.vArr (JSElems.cons (JSValue.vStr "a") JSElems.nil))
      JSFields.nil)
    "b" (JSElems.cons (JSValue.vStr "a") JSElems.nil) rfl rfl⟩

/-- C4 counterexample: the 3.1 root document builder accepts the path
key users that has no leading slash: OpenApiObjectBuilder.path performs
no path-key syntax validation, so the claim that the root document
builder rejects such keys with a Value condition is false on the 3.1
code. -/
theorem C4_path_key_counterexample :
    V31.OpenApiObjectBuilder.path "users" (JSValue.vObj JSFields.nil)
        (V31.OpenApiObjectBuilder.new (JSValue.vObj JSFields.nil))
      = Except.ok (JSFields.cons "info" (JSValue.vObj JSFields.nil)
          (JSFields.cons "openapi" (JSValue.vStr "3.1.0")
            (JSFields.cons "paths"
              (JSValue.vObj (JSFields.cons "users" (JSValue.vObj JSFields.nil) JSFields.nil))
              JSFields.nil))) := rfl

/-- C4 amended: path-key syntax is validated where the repository
actually validates it: the 3.1 PathsObjectBuilder.pathItem rejects a
fresh key without a leading slash with a ValueError and no write, and
accepts a key with one; the 3.0 root document builder pathItem rejects
a key without a leading slash with its bare Error.  The 3.1 root
document builder path() itself performs no such validation (see the
counterexample). -/
theorem C4_path_key_amended :
    (∀ (t : Obj) (path : String) (pi : JSValue), JSFields.hasField t path = false →
      startsWithSlash path = false →
      errKind (V31.PathsObjectBuilder.pathItem path pi t) = some ErrKind.value) ∧
    (∀ (pi : JSValue), V31.PathsObjectBuilder.pathItem "/users" pi V31.PathsObjectBuilder.new
      = Except.ok (JSFields.cons "/users" pi JSFields.nil)) ∧
    (∀ (t : Obj) (path : String) (pi : JSValue), startsWithSlash path = false →
      errKind (V30.OpenApiObjectBuilder.pathItem path pi t) = some ErrKind.plain) := by
  refine ⟨?_, ?_, ?_⟩
  · intro t path pi hdup hslash
    simp [V31.PathsObjectBuilder.pathItem, checkDuplicate, hdup, hslash, exBindOk, errKind]
  · intro pi
    rfl
  · intro t path pi hslash
    simp [V30.OpenApiObjectBuilder.pathItem, V30.validatePath, hslash, exBindErr, errKind]

/-- Witness for C4 at concrete inputs: users is rejected by the 3.1
PathsObjectBuilder and by the 3.0 root builder, and /users is
accepted. -/
theorem C4_path_key_witness :
    errKind (V31.PathsObjectBuilder.pathItem "users" (JSValue.vObj JSFields.nil) JSFields.nil)
        = some ErrKind.value
    ∧ V31.PathsObjectBuilder.pathItem "/users" (JSValue.vObj JSFields.nil)
        V31.PathsObjectBuilder.new
        = Except.ok (JSFields.cons "/users" (JSValue.vObj JSFields.nil) JSFields.nil)
    ∧ errKind (V30.OpenApiObjectBuilder.pathItem "users" (JSValue.vObj JSFields.nil)
        (V30.OpenApiObjectBuilder.new (JSValue.vObj JSFields.nil))) = some ErrKind.plain :=
  ⟨C4_path_key_amended.1 JSFields.nil "users" (JSValue.vObj JSFields.nil) rfl rfl,
   C4_path_key_amended.2.1 (JSValue.vObj JSFields.nil),
   C4_path_key_amended.2.2 (V30.OpenApiObjectBuilder.new (JSValue.vObj JSFields.nil)) "users"
     (JSValue.vObj JSFields.nil) rfl⟩

/-- C5 counterexample: a 3.0 ParameterObjectBuilder constructed with no
arguments reaches build() after a sequence of zero setter calls, and
the build() call itself throws (Missing required in value), so the
claim that build() never throws is false on the 3.0 code. -/
theorem C5_build_counterexample :
    errKind (V30.ParameterObjectBuilder.build (V30.ParameterObjectBuilder.new none none))
      = some ErrKind.plain := rfl

/-- C5 amended: Duplicate, Exclusive and Value failures are raised by
the offending setter or adder call, and the 3.1 build() methods return
the draft and never throw; the 3.0 ParameterObjectBuilder.build and
HeaderObjectBuilder.build, however, throw bare Errors when the
required in or name value is missing or falsy (Parameter), or present
(Header). -/
theorem C5_build_amended :
    (∀ (t : Obj), V31.OpenApiObjectBuilder.build t = t) ∧
    (∀ (t : Obj), V31.ContactObjectBuilder.build t = t) ∧
    (∀ (t : Obj), truthy (JSFields.get t "in") = false →
      errKind (V30.ParameterObjectBuilder.build t) = some ErrKind.plain) ∧
    (∀ (t : Obj), truthy (JSFields.get t "in") = true →
      truthy (JSFields.get t "name") = true →
      V30.ParameterObjectBuilder.build t = Except.ok t) ∧
    (∀ (t : Obj), truthy (JSFields.get t "in") = true →
      errKind (V30.HeaderObjectBuilder.build t) = some ErrKind.plain) := by
  refine ⟨fun t => rfl, fun t => rfl, ?_, ?_, ?_⟩
  · intro t h
    simp [V30.ParameterObjectBuilder.build, h, errKind]
  · intro t h1 h2
    simp [V30.ParameterObjectBuilder.build, h1, h2]
  · intro t h
    simp [V30.HeaderObjectBuilder.build, h, errKind]

/-- Witness for C5 at concrete inputs: a fresh empty draft fails the
3.0 Parameter build, a draft with in and name succeeds, and the 3.1
build is the identity. -/
theorem C5_build_witness :
    V31.OpenApiObjectBuilder.build JSFields.nil = JSFields.nil
    ∧ errKind (V30.ParameterObjectBuilder.build JSFields.nil) = some ErrKind.plain
    ∧ V30.ParameterObjectBuilder.build
        (JSFields.cons "in" (JSValue.vStr "query")
          (JSFields.cons "name" (JSValue.vStr "q") JSFields.nil))
      = Except.ok (JSFields.cons "in" (JSValue.vStr "query")
          (JSFields.cons "name" (JSValue.vStr "q") JSFields.nil)) :=
  ⟨C5_build_amended.1 JSFields.nil,
   C5_build_amended.2.2.1 JSFields.nil rfl,
   C5_build_amended.2.2.2.1
     (JSFields.cons "in" (JSValue.vStr "query")
       (JSFields.cons "name" (JSValue.vStr "q") JSFields.nil)) rfl rfl⟩

/-- C7 counterexample: the 3.0 validateUrl is an empty TODO stub, so
3.0 ContactObjectBuilder.url accepts and stores the unparseable string
not a URL; the claim that every URL-typed field rejects such strings
with a Value condition is false on the 3.0 code. -/
theorem C7_url_counterexample :
    isValidURL "not a URL" = false
    ∧ V30.ContactObjectBuilder.url "not a URL" JSFields.nil
      = Except.ok (JSFields.cons "url" (JSValue.vStr "not a URL") JSFields.nil) :=
  ⟨rfl, rfl⟩

/-- C7 amended: in the 3.1 builders every URL-typed field rejects a
string the URL parser cannot parse with a ValueError (before any draft
write for the url, termsOfService and license url setters; in the
Server and ExternalDocs constructors the check runs on the fresh draft
that the throwing constructor never returns), and a well-formed URL is
accepted and stored verbatim; the 3.0 validateUrl is an unimplemented
no-op that accepts any string. -/
theorem C7_url_amended :
    (∀ (t : Obj) (u : String), JSFields.hasField t "url" = false → isValidURL u = false →
      errKind (V31.ContactObjectBuilder.url u t) = some ErrKind.value) ∧
    (∀ (t : Obj) (u : String), JSFields.hasField t "url" = false →
      JSFields.hasField t "identifier" = false → isValidURL u = false →
      errKind (V31.LicenseObjectBuilder.url u t) = some ErrKind.value) ∧
    (∀ (t : Obj) (u : String), JSFields.hasField t "termsOfService" = false →
      isValidURL u = false →
      errKind (V31.InfoObjectBuilder.termsOfService u t) = some ErrKind.value) ∧
    (∀ (u : String), isValidURL u = false →
      errKind (V31.ServerObjectBuilder.new u) = some ErrKind.value) ∧
    (∀ (u : String), isValidURL u = false →
      errKind (V31.ExternalDocsObjectBuilder.new u) = some ErrKind.value) ∧
    (isValidURL "https://example.com/x" = true) ∧
    (∀ (t : Obj), JSFields.hasField t "url" = false →
      V31.ContactObjectBuilder.url "https://example.com/x" t
        = Except.ok (JSFields.set t "url" (JSValue.vStr "https://example.com/x"))) ∧
    (∀ (u : String), V30.ContactObjectBuilder.url u JSFields.nil
      = Except.ok (JSFields.cons "url" (JSValue.vStr u) JSFields.nil)) := by
  refine ⟨?_, ?_, ?_, ?_, ?_, rfl, ?_, fun u => rfl⟩
  · intro t u hno hurl
    simp [V31.ContactObjectBuilder.url, checkDuplicate, checkURL, hno, hurl,
      exBindOk, exBindErr, errKind]
  · intro t u hno hnoid hurl
    simp [V31.LicenseObjectBuilder.url, checkDuplicate, checkExclusive, checkURL,
      hno, hnoid, hurl, exBindOk, exBindErr, errKind]
  · intro t u hno hurl
    simp [V31.InfoObjectBuilder.termsOfService, checkDuplicate, checkURL, hno, hurl,
      exBindOk, exBindErr, errKind]
  · intro u hurl
    simp [V31.ServerObjectBuilder.new, checkURL, hurl, exBindErr, errKind]
  · intro u hurl
    simp [V31.ExternalDocsObjectBuilder.new, checkURL, hurl, exBindErr, errKind]
  · intro t hno
    simp [V31.ContactObjectBuilder.url, checkDuplicate, checkURL, hno,
      show isValidURL "https://example.com/x" = true from rfl, exBindOk]

/-- Witness for C7 at concrete inputs: not a URL is rejected by the 3.1
contact url setter and the 3.1 server constructor; the well-formed URL
is stored verbatim. -/
theorem C7_url_witness :
    errKind (V31.ContactObjectBuilder.url "not a URL" JSFields.nil) = some ErrKind.value
    ∧ errKind (V31.ServerObjectBuilder.new "not a URL") = some ErrKind.value
    ∧ V31.ContactObjectBuilder.url "https://example.com/x" JSFields.nil
      = Except.ok (JSFields.set JSFields.nil "url" (JSValue.vStr "https://example.com/x")) :=
  ⟨C7_url_amended.1 JSFields.nil "not a URL" rfl rfl,
   C7_url_amended.2.2.2.1 "not a URL" rfl,
   C7_url_amended.2.2.2.2.2.2.1 JSFields.nil rfl⟩

/-- C2: keyed-collection behaviour at concrete inputs.
ComponentsObjectBuilder.schema behaves as the claim states (duplicate
key A is a DuplicateError, distinct keys A and B both land in the built
map).  ResponsesObjectBuilder.statusCode, however, checks the literal
field name statusCode instead of the status-code key, so adding key 200
twice raises no error and silently overwrites the first response; and
ParameterObjectBuilder.examples fails with a DuplicateError on any
second call, even under a fresh key two, because its leading
checkDuplicate fires on the examples field itself (its inner checkMap
branch is unreachable with a success outcome). -/
theorem C2_keyed_uniqueness :
    (V31.ComponentsObjectBuilder.schema "A"
        (JSValue.vObj (JSFields.cons "type" (JSValue.vStr "string") JSFields.nil))
        V31.ComponentsObjectBuilder.new
      = Except.ok (JSFields.cons "schemas"
          (JSValue.vMap (JSFields.cons "A"
            (JSValue.vObj (JSFields.cons "type" (JSValue.vStr "string") JSFields.nil))
            JSFields.nil))
          JSFields.nil)) ∧
    (errKind (V31.ComponentsObjectBuilder.schema "A"
        (JSValue.vObj (JSFields.cons "type" (JSValue.vStr "integer") JSFields.nil))
        (JSFields.cons "schemas"
          (JSValue.vMap (JSFields.cons "A"
            (JSValue.vObj (JSFields.cons "type" (JSValue.vStr "string") JSFields.nil))
            JSFields.nil))
          JSFields.nil)) = some ErrKind.duplicate) ∧
    (V31.ComponentsObjectBuilder.schema "B"
        (JSValue.vObj (JSFields.cons "type" (JSValue.vStr "integer") JSFields.nil))
        (JSFields.cons "schemas"
          (JSValue.vMap (JSFields.cons "A"
            (JSValue.vObj (JSFields.cons "type" (JSValue.vStr "string") JSFields.nil))
            JSFields.nil))
          JSFields.nil)
      = Except.ok (JSFields.cons "schemas"
          (JSValue.vMap (JSFields.cons "A"
            (JSValue.vObj (JSFields.cons "type" (JSValue.vStr "string") JSFields.nil))
            (JSFields.cons "B"
              (JSValue.vObj (JSFields.cons "type" (JSValue.vStr "integer") JSFields.nil))
              JSFields.nil)))
          JSFields.nil)) ∧
    (JSFields.get (V31.ComponentsObjectBuilder.build
        (JSFields.cons "schemas"
          (JSValue.vMap (JSFields.cons "A"
            (JSValue.vObj (JSFields.cons "type" (JSValue.vStr "string") JSFields.nil))
            (JSFields.cons "B"
              (JSValue.vObj (JSFields.cons "type" (JSValue.vStr "integer") JSFields.nil))
              JSFields.nil)))
          JSFields.nil)) "schemas"
      = JSValue.vMap (JSFields.cons "A"
          (JSValue.vObj (JSFields.cons "type" (JSValue.vStr "string") JSFields.nil))
          (JSFields.cons "B"
            (JSValue.vObj (JSFields.cons "type" (JSValue.vStr "integer") JSFields.nil))
            JSFields.nil))) ∧
    (V31.ResponsesObjectBuilder.statusCode "200"
        (JSValue.vObj (JSFields.cons "description" (JSValue.vStr "OK") JSFields.nil))
        V31.ResponsesObjectBuilder.new
      = Except.ok (JSFields.cons "200"
          (JSValue.vObj (JSFields.cons "description" (JSValue.vStr "OK") JSFields.nil))
          JSFields.nil)) ∧
    (V31.ResponsesObjectBuilder.statusCode "200"
        (JSValue.vObj (JSFields.cons "description" (JSValue.vStr "Bad") JSFields.nil))
        (JSFields.cons "200"
          (JSValue.vObj (JSFields.cons "description" (JSValue.vStr "OK") JSFields.nil))
          JSFields.nil)
      = Except.ok (JSFields.cons "200"
          (JSValue.vObj (JSFields.cons "description" (JSValue.vStr "Bad") JSFields.nil))
          JSFields.nil)) ∧
    (V31.ParameterObjectBuilder.examples "one"
        (JSValue.vObj (JSFields.cons "value" (JSValue.vNum 1) JSFields.nil))
        (V31.ParameterObjectBuilder.new "p" "query")
      = Except.ok (JSFields.cons "in" (JSValue.vStr "query")
          (JSFields.cons "name" (JSValue.vStr "p")
            (JSFields.cons "examples"
              (JSValue.vMap (JSFields.cons "one"
                (JSValue.vObj (JSFields.cons "value" (JSValue.vNum 1) JSFields.nil))
                JSFields.nil))
              JSFields.nil)))) ∧
    (errKind (V31.ParameterObjectBuilder.examples "two"
        (JSValue.vObj (JSFields.cons "value" (JSValue.vNum 2) JSFields.nil))
        (JSFields.cons "in" (JSValue.vStr "query")
          (JSFields.cons "name" (JSValue.vStr "p")
            (JSFields.cons "examples"
              (JSValue.vMap (JSFields.cons "one"
                (JSValue.vObj (JSFields.cons "value" (JSValue.vNum 1) JSFields.nil))
                JSFields.nil))
              JSFields.nil)))) = some ErrKind.duplicate) :=
  ⟨rfl, rfl, rfl, rfl, rfl, rfl, rfl, rfl⟩

/-- C6: the cited constructors do not leave optional fields absent.  The
3.1 HeaderObjectBuilder takes no constructor arguments, yet its fresh
draft (and hence its built and serialized node) carries the keys in and
name with the placeholder values path and -----, contradicting its own
class comment; the 3.0 SchemaObjectBuilder called with no arguments
writes explicit undefined values, so the draft owns the keys
description and type (JSON serialization then drops them). -/
theorem C6_omission_evaluated :
    JSFields.keys V31.HeaderObjectBuilder.new = ["in", "name"]
    ∧ V31.HeaderObjectBuilder.build V31.HeaderObjectBuilder.new
      = JSFields.cons "in" (JSValue.vStr "path")
          (JSFields.cons "name" (JSValue.vStr "-----") JSFields.nil)
    ∧ serializedKeys (V31.HeaderObjectBuilder.build V31.HeaderObjectBuilder.new) = ["in", "name"]
    ∧ JSFields.keys (V30.SchemaObjectBuilder.new none none none) = ["description", "type"]
    ∧ serializedKeys (V30.SchemaObjectBuilder.new none none none) = [] :=
  ⟨rfl, rfl, rfl, rfl, rfl⟩

/-- C9: behaviour of the 3.1 ServerVariableObjectBuilder.  Its
constructor and its description and enum setters accumulate the draft
exactly as the claim describes, but the class declares no build()
method at all (the embedded model therefore has none either), so the
accumulated ServerVariableObject can never be obtained from the
builder. -/
theorem C9_server_variable_evaluated :
    V31.ServerVariableObjectBuilder.new "v"
      = JSFields.cons "default" (JSValue.vStr "v") JSFields.nil
    ∧ V31.ServerVariableObjectBuilder.description "d"
        (JSFields.cons "default" (JSValue.vStr "v") JSFields.nil)
      = Except.ok (JSFields.cons "default" (JSValue.vStr "v")
          (JSFields.cons "description" (JSValue.vStr "d") JSFields.nil))
    ∧ V31.ServerVariableObjectBuilder.enum ["a"]
        (JSFields.cons "default" (JSValue.vStr "v")
          (JSFields.cons "description" (JSValue.vStr "d") JSFields.nil))
      = Except.ok (JSFields.cons "default" (JSValue.vStr "v")
          (JSFields.cons "description" (JSValue.vStr "d")
            (JSFields.cons "enum"
              (JSValue.vArr (JSElems.cons (JSValue.vStr "a") JSElems.nil))
              JSFields.nil))) :=
  ⟨rfl, rfl, rfl⟩

/-! Faithfulness certificate for the recursion counter of `deepEqual`:
above the provisioned bound `jsSize object1` the counter value is
irrelevant, so `deepEqual` computes the unbounded recursion of the
source comparator. -/

/-- Membership of a key-value entry in a property table. -/
def memFields (k : String) (v : JSValue) : JSFields → Prop
  | JSFields.nil => False
  | JSFields.cons k2 v2 rest => (k = k2 ∧ v = v2) ∨ memFields k v rest

theorem jsSize_pos : ∀ (o : JSValue), 1 ≤ jsSize o
  | JSValue.vUndefined => le_refl 1
  | JSValue.vNull => le_refl 1
  | JSValue.vBool _ => le_refl 1
  | JSValue.vNum _ => le_refl 1
  | JSValue.vStr _ => le_refl 1
  | JSValue.vObj _ => by unfold jsSize; omega
  | JSValue.vArr _ => by unfold jsSize; omega
  | JSValue.vMap _ => le_refl 1

theorem memFields_size : ∀ (fs : JSFields) (k : String) (v : JSValue),
    memFields k v fs → jsSize v ≤ jsSizeFields fs
  | JSFields.nil, _, _, h => h.elim
  | JSFields.cons k2 v2 rest, k, v, h => by
    cases h with
    | inl he =>
      rw [he.2]
      unfold jsSizeFields
      omega
    | inr hm =>
      have := memFields_size rest k v hm
      unfold jsSizeFields
      omega

theorem memFields_elemProps : ∀ (es : JSElems) (i : Nat) (k : String) (v : JSValue),
    memFields k v (elemProps i es) → jsSize v ≤ jsSizeElems es
  | JSElems.nil, _, _, _, h => h.elim
  | JSElems.cons w rest, i, k, v, h => by
    cases h with
    | inl he =>
      rw [he.2]
      unfold jsSizeElems
      omega
    | inr hm =>
      have := memFields_elemProps rest (i + 1) k v hm
      unfold jsSizeElems
      omega

theorem memFields_charProps : ∀ (cs : List Char) (i : Nat) (k : String) (v : JSValue),
    memFields k v (charProps i cs) → isObject v = false
  | [], _, _, _, h => h.elim
  | c :: rest, i, k, v, h => by
    cases h with
    | inl he => rw [he.2]; rfl
    | inr hm => exact memFields_charProps rest (i + 1) k v hm

theorem memProps_size_lt (o1 : JSValue) (k : String) (v : JSValue)
    (hm : memFields k v (ownProps o1)) (hobj : isObject v = true) :
    jsSize v < jsSize o1 := by
  cases o1 with
  | vObj fs =>
    have h1 := memFields_size fs k v hm
    have h2 : jsSize (JSValue.vObj fs) = 1 + jsSizeFields fs := rfl
    omega
  | vArr es =>
    have h1 := memFields_elemProps es 0 k v hm
    have h2 : jsSize (JSValue.vArr es) = 1 + jsSizeElems es := rfl
    omega
  | vStr s =>
    have := memFields_charProps s.toList 0 k v hm
    rw [hobj] at this
    exact absurd this (by simp)
  | vUndefined => exact hm.elim
  | vNull => exact hm.elim
  | vBool b => exact hm.elim
  | vNum n => exact hm.elim
  | vMap fs => exact hm.elim

theorem all_congr : ∀ (fs : JSFields) (p q : String → JSValue → Bool),
    (∀ k v, memFields k v fs → p k v = q k v) → JSFields.all fs p = JSFields.all fs q
  | JSFields.nil, _, _, _ => rfl
  | JSFields.cons k v rest, p, q, h => by
    unfold JSFields.all
    rw [h k v (Or.inl ⟨rfl, rfl⟩),
        all_congr rest p q (fun k2 v2 hm => h k2 v2 (Or.inr hm))]

theorem deepEqualFuel_stable : ∀ (f1 f2 : Nat) (o1 o2 : JSValue),
    jsSize o1 ≤ f1 → jsSize o1 ≤ f2 → deepEqualFuel f1 o1 o2 = deepEqualFuel f2 o1 o2
  | 0, _, o1, _, h1, _ => absurd (le_trans (jsSize_pos o1) h1) (by omega)
  | _ + 1, 0, o1, _, _, h2 => absurd (le_trans (jsSize_pos o1) h2) (by omega)
  | n + 1, m + 1, o1, o2, h1, h2 => by
    simp only [deepEqualFuel]
    congr 1
    apply all_congr
    intro k v hm
    by_cases hobj : isObject v && isObject (jsIndex o2 k)
    · simp only [hobj, if_true]
      have hv : isObject v = true := ((Bool.and_eq_true _ _).mp hobj).1
      have hlt := memProps_size_lt o1 k v hm hv
      exact deepEqualFuel_stable n m v (jsIndex o2 k) (by omega) (by omega)
    · simp only [Bool.not_eq_true] at hobj
      simp [hobj]
